import Mathlib

/-!
# TCP over 802.11b throughput harness

A shallow embedding of the three programs of the repository

* `tcp-80211b.cc`      (single trial, parameters from the command line),
* `codes/dataRate.cc`  (sweep: station count x application data rate),
* `codes/phyRate.cc`   (sweep: station count x physical rate).

The programs are straight-line scripts over the ns-3 library.  Every call
into the library is recorded as an `EngineCall`, in source order, with the
arguments the source passes.  The library itself is a parameter: an
`Engine` is a state machine over these calls together with the value the
sink's byte counter holds in a given state.

Conventions.
* `uint32_t` values are natural numbers; a store into a `uint32_t` and
  every `uint32_t` operation is taken modulo `2 ^ 32`.
* `double` values are modelled by exact rationals.
* Calls into the library are assumed to return.
-/

set_option linter.unusedVariables false

namespace Ns3

/-! ## Values handed to the library -/

/-- Node containers declared by a trial: `wifiStaNodes` and `wifiApNode`. -/
inductive NodeGroup
  | wifiStaNodes
  | wifiApNode
  deriving DecidableEq, Repr

/-- Device containers declared by a trial: `apDevice` and `staDevices`. -/
inductive DevGroup
  | apDevice
  | staDevices
  deriving DecidableEq, Repr

/-- Application containers declared by a trial: `sinkApp` and `apps`. -/
inductive AppGroup
  | sinkApp
  | apps
  deriving DecidableEq, Repr

/-- An IPv4 address as the source names it. -/
inductive Ipv4Ref
  /-- The wildcard `Ipv4Address::GetAny ()`. -/
  | any
  /-- The address `ApInterface.GetAddress (i)`. -/
  | apInterface (i : Nat)
  deriving DecidableEq, Repr

/-- An `Address` built by the source. -/
inductive Address
  /-- An `Ipv4Address` converted to an `Address`. -/
  | ipv4 (a : Ipv4Ref)
  /-- The socket address `InetSocketAddress (a, port)`. -/
  | inetSocket (a : Ipv4Ref) (port : Nat)
  deriving DecidableEq, Repr

/-- Attribute values (`StringValue`, `UintegerValue`, ...). -/
inductive AttrValue
  | str (s : String)
  | uint (n : Nat)
  | dbl (x : ℚ)
  | bool (b : Bool)
  | ssid (name : String)
  | rectangle (xMin xMax yMin yMax : ℚ)
  | dataRate (rate : String)
  | address (a : Address)
  deriving DecidableEq, Repr

/-- One call from a program into the ns-3 library. -/
inductive EngineCall
  /-- Default construction of a helper object, e.g. `WifiHelper wifiHelper;`. -/
  | construct (type : String)
  /-- An argument `--name=value` that `cmd.Parse` hands to the global values
  and attribute defaults of the library. -/
  | commandLineGlobal (name value : String)
  /-- The call `Config::SetDefault (name, v)`. -/
  | configSetDefault (name : String) (v : AttrValue)
  /-- The call `wifiHelper.SetStandard (standard)`. -/
  | wifiSetStandard (standard : String)
  /-- The call `wifiChannel.SetPropagationDelay (type)`. -/
  | channelSetPropagationDelay (type : String)
  /-- The call `wifiChannel.AddPropagationLoss (type, attrs)`. -/
  | channelAddPropagationLoss (type : String) (attrs : List (String × AttrValue))
  /-- The call `YansWifiPhyHelper::Default ()`. -/
  | phyDefault
  /-- The call `wifiChannel.Create ()`. -/
  | channelCreate
  /-- The call `wifiPhy.SetChannel (...)` on the channel just created. -/
  | phySetChannel
  /-- The call `wifiPhy.Set (name, v)`. -/
  | phySet (name : String) (v : AttrValue)
  /-- The call `wifiPhy.SetErrorRateModel (type)`. -/
  | phySetErrorRateModel (type : String)
  /-- The call `wifiHelper.SetRemoteStationManager (type, attrs)`. -/
  | wifiSetRemoteStationManager (type : String) (attrs : List (String × AttrValue))
  /-- The call `g.Create (n)` on a node container. -/
  | nodesCreate (g : NodeGroup) (n : Nat)
  /-- The call `wifiMac.SetType (type, attrs)`. -/
  | macSetType (type : String) (attrs : List (String × AttrValue))
  /-- The call `d = wifiHelper.Install (wifiPhy, wifiMac, g)`. -/
  | wifiInstall (d : DevGroup) (g : NodeGroup)
  /-- The call `mobility.SetPositionAllocator (type, attrs)`. -/
  | mobilitySetPositionAllocator (type : String) (attrs : List (String × AttrValue))
  /-- The call `mobility.SetMobilityModel (type, attrs)`. -/
  | mobilitySetMobilityModel (type : String) (attrs : List (String × AttrValue))
  /-- The call `mobility.Install (g)`. -/
  | mobilityInstall (g : NodeGroup)
  /-- The call `stack.Install (g)`. -/
  | stackInstall (g : NodeGroup)
  /-- The call `address.SetBase (network, mask)`. -/
  | addressSetBase (network mask : String)
  /-- The call `address.Assign (d)`. -/
  | addressAssign (d : DevGroup)
  /-- The call `Ipv4GlobalRoutingHelper::PopulateRoutingTables ()`. -/
  | populateRoutingTables
  /-- Construction `PacketSinkHelper packetSinkHelper (factory, local)`. -/
  | packetSinkHelper (factory : String) (loc : Address)
  /-- The call `sinkApp = packetSinkHelper.Install (g.Get (i))`. -/
  | packetSinkInstall (g : NodeGroup) (i : Nat)
  /-- The call `c.Start (Seconds (t))` on an application container. -/
  | appStart (c : AppGroup) (t : ℚ)
  /-- The call `c.Stop (Seconds (t))` on an application container. -/
  | appStop (c : AppGroup) (t : ℚ)
  /-- Construction `OnOffHelper onoff (factory, remote)`. -/
  | onOffHelper (factory : String) (remote : Address)
  /-- The call `onoff.SetAttribute (name, v)`. -/
  | onOffSetAttribute (name : String) (v : AttrValue)
  /-- The call `apps.Add (onoff.Install (g))`. -/
  | onOffInstall (g : NodeGroup)
  /-- The call `wifiPhy.SetPcapDataLinkType (dlt)`. -/
  | phySetPcapDataLinkType (dlt : String)
  /-- The call `wifiPhy.EnablePcap (name, d)`. -/
  | phyEnablePcap (name : String) (d : DevGroup)
  /-- The call `Simulator::Stop (Seconds (t))`. -/
  | simulatorStop (t : ℚ)
  /-- The call `Simulator::Run ()`. -/
  | simulatorRun
  /-- The call `Simulator::Destroy ()`. -/
  | simulatorDestroy
  /-- The read `DynamicCast<PacketSink> (c.Get (i))->GetTotalRx ()`. -/
  | getTotalRx (c : AppGroup) (i : Nat)
  deriving DecidableEq, Repr

/-- The ns-3 library as seen by the programs: how a call changes the
library state, and what the sink's cumulative byte counter reads in a
state.  Calls are assumed to return. -/
structure Engine (σ : Type) where
  step : σ → EngineCall → σ
  totalRx : σ → Nat

/-- Issue a sequence of calls, in order. -/
def exec {σ : Type} (E : Engine σ) (s : σ) (calls : List EngineCall) : σ :=
  calls.foldl E.step s

/-- What one trial leaves behind: the value it computes, the library state
after it, and the calls it issued, in order. -/
structure TrialOutcome (σ : Type) where
  throughput : ℚ
  state : σ
  trace : List EngineCall

/-! ## Output of the sweep drivers -/

/-- One line of a result table.  The three columns are separated by tabs in
the source; the decimal rendering of the throughput is not modelled. -/
inductive Line
  /-- The header row, e.g. `"nWifi" \t "dataRate" \t "throughput"`. -/
  | header (c1 c2 c3 : String)
  /-- A data row `nWifi \t label \t throughput`. -/
  | row (nWifi : Nat) (label : String) (throughput : ℚ)
  deriving DecidableEq, Repr

/-- Whether a line is a data row. -/
def Line.isRow : Line → Bool
  | .header _ _ _ => false
  | .row _ _ _ => true

/-- Observable actions of a sweep driver, in program order. -/
inductive Event
  /-- A call into the library. -/
  | engine (c : EngineCall)
  /-- The call `dataFile.open (name)`. -/
  | fileOpen (name : String)
  /-- A line streamed to `dataFile`, ended by `std::endl`. -/
  | file (l : Line)
  /-- A line streamed to `std::cout`, ended by `std::endl`. -/
  | console (l : Line)
  /-- The call `dataFile.close ()`. -/
  | fileClose
  deriving DecidableEq, Repr

/-- State of a running sweep driver: the library state and the actions
performed so far. -/
structure SweepState (σ : Type) where
  engine : σ
  events : List Event

/-- Lines written to the data file so far. -/
def fileLines (events : List Event) : List Line :=
  events.filterMap fun e => match e with
    | .file l => some l
    | _ => none

/-- Lines written to the console so far. -/
def consoleLines (events : List Event) : List Line :=
  events.filterMap fun e => match e with
    | .console l => some l
    | _ => none

/-- Data rows among the lines of a sink. -/
def dataRecords (lines : List Line) : List Line :=
  lines.filter Line.isRow

/-- Perform one action that is not a trial. -/
def SweepState.emit {σ : Type} (st : SweepState σ) (e : Event) : SweepState σ :=
  { engine := st.engine, events := st.events ++ [e] }

/-- Run one trial function from the current library state; its calls are
appended to the actions and its value is returned. -/
def SweepState.call {σ : Type} (st : SweepState σ) (trial : σ → TrialOutcome σ) :
    ℚ × SweepState σ :=
  let r := trial st.engine
  (r.throughput, { engine := r.state, events := st.events ++ r.trace.map Event.engine })

/-! ## codes/dataRate.cc: the trial -/

namespace DataRate

/-- Configuration defaults, channel and physical layer (lines 54 to 84). -/
def physicalLayerCalls (payloadSize : Nat) (phyRate : String) : List EngineCall :=
  [ -- No fragmentation and no RTS/CTS
    .configSetDefault "ns3::WifiRemoteStationManager::FragmentationThreshold" (.str "999999"),
    .configSetDefault "ns3::WifiRemoteStationManager::RtsCtsThreshold" (.str "999999"),
    -- Configure TCP Options
    .configSetDefault "ns3::TcpSocket::SegmentSize" (.uint payloadSize),
    .construct "WifiMacHelper",
    .construct "WifiHelper",
    .wifiSetStandard "WIFI_PHY_STANDARD_80211b",
    -- Set up Legacy Channel
    .construct "YansWifiChannelHelper",
    .channelSetPropagationDelay "ns3::ConstantSpeedPropagationDelayModel",
    .channelAddPropagationLoss "ns3::FriisPropagationLossModel"
      [("Frequency", .dbl 5000000000)],
    -- Setup Physical Layer
    .phyDefault,
    .channelCreate,
    .phySetChannel,
    .phySet "TxPowerStart" (.dbl 10),
    .phySet "TxPowerEnd" (.dbl 10),
    .phySet "TxPowerLevels" (.uint 1),
    .phySet "TxGain" (.dbl 0),
    .phySet "RxGain" (.dbl 0),
    .phySet "RxNoiseFigure" (.dbl 10),
    .phySet "CcaMode1Threshold" (.dbl (-79)),
    .phySet "EnergyDetectionThreshold" (.dbl (-79 + 3)),
    .phySetErrorRateModel "ns3::YansErrorRateModel",
    .wifiSetRemoteStationManager "ns3::ConstantRateWifiManager"
      [("DataMode", .str phyRate), ("ControlMode", .str phyRate)] ]

/-- Nodes, MAC layer, mobility, internet stack, addresses and routing
(lines 86 to 143). -/
def topologyCalls (nWifi : Nat) : List EngineCall :=
  [ .construct "NodeContainer",
    .nodesCreate .wifiStaNodes nWifi,
    .construct "NodeContainer",
    .nodesCreate .wifiApNode 1,
    -- Configure AP
    .macSetType "ns3::ApWifiMac" [("Ssid", .ssid "network")],
    .wifiInstall .apDevice .wifiApNode,
    -- Configure STA
    .macSetType "ns3::StaWifiMac"
      [("Ssid", .ssid "network"), ("ActiveProbing", .bool false)],
    .wifiInstall .staDevices .wifiStaNodes,
    -- Mobility model
    .construct "MobilityHelper",
    .mobilitySetPositionAllocator "ns3::GridPositionAllocator"
      [("MinX", .dbl 0), ("MinY", .dbl 0), ("DeltaX", .dbl 5), ("DeltaY", .dbl 10),
       ("GridWidth", .uint 3), ("LayoutType", .str "RowFirst")],
    .mobilitySetMobilityModel "ns3::RandomDirection2dMobilityModel"
      [("Bounds", .rectangle (-500) 500 (-500) 500),
       ("Speed", .str "ns3::ConstantRandomVariable[Constant=2]"),
       ("Pause", .str "ns3::ConstantRandomVariable[Constant=0.2]")],
    .mobilityInstall .wifiStaNodes,
    .mobilitySetMobilityModel "ns3::ConstantPositionMobilityModel" [],
    .mobilityInstall .wifiApNode,
    -- Internet stack
    .construct "InternetStackHelper",
    .stackInstall .wifiApNode,
    .stackInstall .wifiStaNodes,
    .construct "Ipv4AddressHelper",
    .addressSetBase "192.168.1.0" "255.255.255.0",
    .addressAssign .staDevices,
    .addressAssign .apDevice,
    -- Populate routing table
    .populateRoutingTables ]

/-- The receiver on the access point and the transmitters on the stations
(lines 145 to 167). -/
def applicationCalls (payloadSize : Nat) (dataRate : String) (simulationTime : ℚ) :
    List EngineCall :=
  let port : Nat := 50000
  [ -- Install TCP Receiver on the access point
    .packetSinkHelper "ns3::TcpSocketFactory" (.inetSocket .any port),
    .packetSinkInstall .wifiApNode 0,
    .appStart .sinkApp 0,
    .appStop .sinkApp (simulationTime + 1),
    -- Install TCP Transmitter on the stations
    .onOffHelper "ns3::TcpSocketFactory" (.ipv4 .any),
    .onOffSetAttribute "OnTime" (.str "ns3::ConstantRandomVariable[Constant=1]"),
    .onOffSetAttribute "OffTime" (.str "ns3::ConstantRandomVariable[Constant=0]"),
    .onOffSetAttribute "PacketSize" (.uint payloadSize),
    .onOffSetAttribute "DataRate" (.dataRate dataRate),
    .onOffSetAttribute "Remote" (.address (.inetSocket (.apInterface 0) port)),
    .construct "ApplicationContainer",
    .onOffInstall .wifiStaNodes,
    .appStart .apps 1,
    .appStop .apps (simulationTime + 1) ]

/-- Enable Traces (lines 169 to 175). -/
def traceCalls (pcapTracing : Bool) : List EngineCall :=
  if pcapTracing then
    [ .phySetPcapDataLinkType "DLT_IEEE802_11_RADIO",
      .phyEnablePcap "AccessPoint" .apDevice,
      .phyEnablePcap "Station" .staDevices ]
  else []

/-- Start Simulation (lines 177 to 180). -/
def simulatorCalls (simulationTime : ℚ) : List EngineCall :=
  [ .simulatorStop (simulationTime + 1),
    .simulatorRun,
    .simulatorDestroy ]

/-- Calls issued by `experiment` up to and including `Simulator::Destroy ()`, in
source order. -/
def trialCalls (payloadSize nWifi : Nat) (dataRate tcpVariant phyRate : String)
    (simulationTime : ℚ) (pcapTracing : Bool) : List EngineCall :=
  physicalLayerCalls payloadSize phyRate ++ (topologyCalls nWifi ++
    (applicationCalls payloadSize dataRate simulationTime ++
      (traceCalls pcapTracing ++ simulatorCalls simulationTime)))

/-- The function `experiment` of `codes/dataRate.cc`.  The read of the
counter is the last call; it leaves the library state as it is. -/
def experiment {σ : Type} (E : Engine σ) (s : σ) (payloadSize nWifi : Nat)
    (dataRate tcpVariant phyRate : String) : TrialOutcome σ :=
  let simulationTime : ℚ := 1
  let pcapTracing : Bool := false
  let calls := trialCalls payloadSize nWifi dataRate tcpVariant phyRate simulationTime pcapTracing
  let s1 := exec E s calls
  let totalPacketsThrough : Nat := E.totalRx s1 % 2 ^ 32
  let throughput : ℚ := ((totalPacketsThrough * 8 % 2 ^ 32 : Nat) : ℚ) / (simulationTime * 1000000)
  { throughput := throughput, state := s1, trace := calls ++ [.getTotalRx .sinkApp 0] }

/-- One pass of the loop body of `main` (lines 201 to 249). -/
def body {σ : Type} (E : Engine σ) (nWifi : Nat) (st : SweepState σ) : SweepState σ :=
  let payloadSize : Nat := 1024
  let tcpVariant : String := "ns3::TcpNewReno"
  let phyRate : String := "DsssRate11Mbps"
  let (throughput, st) := st.call fun s => experiment E s payloadSize nWifi "100Mbps" tcpVariant phyRate
  let st := st.emit (.file (.row nWifi "100Mbps" throughput))
  let st := st.emit (.console (.row nWifi "100Mbps" throughput))
  let (throughput, st) := st.call fun s => experiment E s payloadSize nWifi "200Mbps" tcpVariant phyRate
  let st := st.emit (.file (.row nWifi "200Mbps" throughput))
  let st := st.emit (.console (.row nWifi "200Mbps" throughput))
  let (throughput, st) := st.call fun s => experiment E s payloadSize nWifi "300Mbps" tcpVariant phyRate
  let st := st.emit (.file (.row nWifi "300Mbps" throughput))
  let st := st.emit (.console (.row nWifi "300Mbps" throughput))
  let (throughput, st) := st.call fun s => experiment E s payloadSize nWifi "400Mbps" tcpVariant phyRate
  let st := st.emit (.file (.row nWifi "400Mbps" throughput))
  let st := st.emit (.console (.row nWifi "400Mbps" throughput))
  let (throughput, st) := st.call fun s => experiment E s payloadSize nWifi "500Mbps" tcpVariant phyRate
  let st := st.emit (.file (.row nWifi "500Mbps" throughput))
  let st := st.emit (.console (.row nWifi "500Mbps" throughput))
  let (throughput, st) := st.call fun s => experiment E s payloadSize nWifi "600Mbps" tcpVariant phyRate
  let st := st.emit (.file (.row nWifi "600Mbps" throughput))
  let st := st.emit (.console (.row nWifi "600Mbps" throughput))
  let (throughput, st) := st.call fun s => experiment E s payloadSize nWifi "700Mbps" tcpVariant phyRate
  let st := st.emit (.file (.row nWifi "700Mbps" throughput))
  let st := st.emit (.console (.row nWifi "700Mbps" throughput))
  let (throughput, st) := st.call fun s => experiment E s payloadSize nWifi "800Mbps" tcpVariant phyRate
  let st := st.emit (.file (.row nWifi "800Mbps" throughput))
  let st := st.emit (.console (.row nWifi "800Mbps" throughput))
  st

/-- The loop `for (uint32_t nWifi = 1; nWifi <= 50; nWifi++)` of `main`,
entered with the given value of `nWifi`. -/
def loop {σ : Type} (E : Engine σ) (nWifi : Nat) (st : SweepState σ) : SweepState σ :=
  if nWifi ≤ 50 then loop E (nWifi + 1) (body E nWifi st) else st
termination_by 51 - nWifi

/-- The function `main` of `codes/dataRate.cc`, started in library state `s`. -/
def main {σ : Type} (E : Engine σ) (s : σ) : SweepState σ :=
  let st : SweepState σ := { engine := s, events := [] }
  let st := st.emit (.fileOpen "dataRate.dat")
  let st := st.emit (.file (.header "nWifi" "dataRate" "throughput"))
  let st := st.emit (.console (.header "nWifi" "dataRate" "throughput"))
  let st := loop E 1 st
  let st := st.emit .fileClose
  st

end DataRate

/-! ## codes/phyRate.cc: the trial -/

namespace PhyRate

/-- Configuration defaults, channel and physical layer (lines 44 to 74). -/
def physicalLayerCalls (payloadSize : Nat) (phyRate : String) : List EngineCall :=
  [ -- No fragmentation and no RTS/CTS
    .configSetDefault "ns3::WifiRemoteStationManager::FragmentationThreshold" (.str "999999"),
    .configSetDefault "ns3::WifiRemoteStationManager::RtsCtsThreshold" (.str "999999"),
    -- Configure TCP Options
    .configSetDefault "ns3::TcpSocket::SegmentSize" (.uint payloadSize),
    .construct "WifiMacHelper",
    .construct "WifiHelper",
    .wifiSetStandard "WIFI_PHY_STANDARD_80211b",
    -- Set up Legacy Channel
    .construct "YansWifiChannelHelper",
    .channelSetPropagationDelay "ns3::ConstantSpeedPropagationDelayModel",
    .channelAddPropagationLoss "ns3::FriisPropagationLossModel"
      [("Frequency", .dbl 5000000000)],
    -- Setup Physical Layer
    .phyDefault,
    .channelCreate,
    .phySetChannel,
    .phySet "TxPowerStart" (.dbl 10),
    .phySet "TxPowerEnd" (.dbl 10),
    .phySet "TxPowerLevels" (.uint 1),
    .phySet "TxGain" (.dbl 0),
    .phySet "RxGain" (.dbl 0),
    .phySet "RxNoiseFigure" (.dbl 10),
    .phySet "CcaMode1Threshold" (.dbl (-79)),
    .phySet "EnergyDetectionThreshold" (.dbl (-79 + 3)),
    .phySetErrorRateModel "ns3::YansErrorRateModel",
    .wifiSetRemoteStationManager "ns3::ConstantRateWifiManager"
      [("DataMode", .str phyRate), ("ControlMode", .str phyRate)] ]

/-- Nodes, MAC layer, mobility, internet stack, addresses and routing
(lines 76 to 133). -/
def topologyCalls (nWifi : Nat) : List EngineCall :=
  [ .construct "NodeContainer",
    .nodesCreate .wifiStaNodes nWifi,
    .construct "NodeContainer",
    .nodesCreate .wifiApNode 1,
    -- Configure AP
    .macSetType "ns3::ApWifiMac" [("Ssid", .ssid "network")],
    .wifiInstall .apDevice .wifiApNode,
    -- Configure STA
    .macSetType "ns3::StaWifiMac"
      [("Ssid", .ssid "network"), ("ActiveProbing", .bool false)],
    .wifiInstall .staDevices .wifiStaNodes,
    -- Mobility model
    .construct "MobilityHelper",
    .mobilitySetPositionAllocator "ns3::GridPositionAllocator"
      [("MinX", .dbl 0), ("MinY", .dbl 0), ("DeltaX", .dbl 5), ("DeltaY", .dbl 10),
       ("GridWidth", .uint 3), ("LayoutType", .str "RowFirst")],
    .mobilitySetMobilityModel "ns3::RandomDirection2dMobilityModel"
      [("Bounds", .rectangle (-500) 500 (-500) 500),
       ("Speed", .str "ns3::ConstantRandomVariable[Constant=2]"),
       ("Pause", .str "ns3::ConstantRandomVariable[Constant=0.2]")],
    .mobilityInstall .wifiStaNodes,
    .mobilitySetMobilityModel "ns3::ConstantPositionMobilityModel" [],
    .mobilityInstall .wifiApNode,
    -- Internet stack
    .construct "InternetStackHelper",
    .stackInstall .wifiApNode,
    .stackInstall .wifiStaNodes,
    .construct "Ipv4AddressHelper",
    .addressSetBase "192.168.1.0" "255.255.255.0",
    .addressAssign .staDevices,
    .addressAssign .apDevice,
    -- Populate routing table
    .populateRoutingTables ]

/-- The receiver on the access point and the transmitters on the stations
(lines 135 to 157). -/
def applicationCalls (payloadSize : Nat) (dataRate : String) (simulationTime : ℚ) :
    List EngineCall :=
  let port : Nat := 50000
  [ -- Install TCP Receiver on the access point
    .packetSinkHelper "ns3::TcpSocketFactory" (.inetSocket .any port),
    .packetSinkInstall .wifiApNode 0,
    .appStart .sinkApp 0,
    .appStop .sinkApp (simulationTime + 1),
    -- Install TCP Transmitter on the stations
    .onOffHelper "ns3::TcpSocketFactory" (.ipv4 .any),
    .onOffSetAttribute "OnTime" (.str "ns3::ConstantRandomVariable[Constant=1]"),
    .onOffSetAttribute "OffTime" (.str "ns3::ConstantRandomVariable[Constant=0]"),
    .onOffSetAttribute "PacketSize" (.uint payloadSize),
    .onOffSetAttribute "DataRate" (.dataRate dataRate),
    .onOffSetAttribute "Remote" (.address (.inetSocket (.apInterface 0) port)),
    .construct "ApplicationContainer",
    .onOffInstall .wifiStaNodes,
    .appStart .apps 1,
    .appStop .apps (simulationTime + 1) ]

/-- Enable Traces (lines 159 to 165). -/
def traceCalls (pcapTracing : Bool) : List EngineCall :=
  if pcapTracing then
    [ .phySetPcapDataLinkType "DLT_IEEE802_11_RADIO",
      .phyEnablePcap "AccessPoint" .apDevice,
      .phyEnablePcap "Station" .staDevices ]
  else []

/-- Start Simulation (lines 167 to 170). -/
def simulatorCalls (simulationTime : ℚ) : List EngineCall :=
  [ .simulatorStop (simulationTime + 1),
    .simulatorRun,
    .simulatorDestroy ]

/-- Calls issued by `experiment` up to and including `Simulator::Destroy ()`, in
source order. -/
def trialCalls (payloadSize nWifi : Nat) (dataRate tcpVariant phyRate : String)
    (simulationTime : ℚ) (pcapTracing : Bool) : List EngineCall :=
  physicalLayerCalls payloadSize phyRate ++ (topologyCalls nWifi ++
    (applicationCalls payloadSize dataRate simulationTime ++
      (traceCalls pcapTracing ++ simulatorCalls simulationTime)))

/-- The function `experiment` of `codes/phyRate.cc`.  The read of the
counter is the last call; it leaves the library state as it is. -/
def experiment {σ : Type} (E : Engine σ) (s : σ) (payloadSize nWifi : Nat)
    (dataRate tcpVariant phyRate : String) : TrialOutcome σ :=
  let simulationTime : ℚ := 1
  let pcapTracing : Bool := false
  let calls := trialCalls payloadSize nWifi dataRate tcpVariant phyRate simulationTime pcapTracing
  let s1 := exec E s calls
  let totalPacketsThrough : Nat := E.totalRx s1 % 2 ^ 32
  let throughput : ℚ := ((totalPacketsThrough * 8 % 2 ^ 32 : Nat) : ℚ) / (simulationTime * 1000000)
  { throughput := throughput, state := s1, trace := calls ++ [.getTotalRx .sinkApp 0] }

/-- One pass of the loop body of `main` (lines 191 to 218). -/
def body {σ : Type} (E : Engine σ) (nWifi : Nat) (st : SweepState σ) : SweepState σ :=
  let payloadSize : Nat := 1024
  let dataRate : String := "100Mbps"
  let tcpVariant : String := "ns3::TcpNewReno"
  let (throughput, st) := st.call fun s => experiment E s payloadSize nWifi dataRate tcpVariant "DsssRate11Mbps"
  let st := st.emit (.file (.row nWifi "DsssRate11Mbps" throughput))
  let st := st.emit (.console (.row nWifi "DsssRate11Mbps" throughput))
  let (throughput, st) := st.call fun s => experiment E s payloadSize nWifi dataRate tcpVariant "DsssRate5_5Mbps"
  let st := st.emit (.file (.row nWifi "DsssRate5_5Mbps" throughput))
  let st := st.emit (.console (.row nWifi "DsssRate5_5Mbps" throughput))
  let (throughput, st) := st.call fun s => experiment E s payloadSize nWifi dataRate tcpVariant "DsssRate2Mbps"
  let st := st.emit (.file (.row nWifi "DsssRate2Mbps" throughput))
  let st := st.emit (.console (.row nWifi "DsssRate2Mbps" throughput))
  let (throughput, st) := st.call fun s => experiment E s payloadSize nWifi dataRate tcpVariant "DsssRate1Mbps"
  let st := st.emit (.file (.row nWifi "DsssRate1Mbps" throughput))
  let st := st.emit (.console (.row nWifi "DsssRate1Mbps" throughput))
  st

/-- The loop `for (uint32_t nWifi = 1; nWifi <= 50; nWifi++)` of `main`,
entered with the given value of `nWifi`. -/
def loop {σ : Type} (E : Engine σ) (nWifi : Nat) (st : SweepState σ) : SweepState σ :=
  if nWifi ≤ 50 then loop E (nWifi + 1) (body E nWifi st) else st
termination_by 51 - nWifi

/-- The function `main` of `codes/phyRate.cc`, started in library state `s`. -/
def main {σ : Type} (E : Engine σ) (s : σ) : SweepState σ :=
  let st : SweepState σ := { engine := s, events := [] }
  let st := st.emit (.fileOpen "phyRate.dat")
  let st := st.emit (.file (.header "nWifi" "phyRate" "throughput"))
  let st := st.emit (.console (.header "nWifi" "phyRate" "throughput"))
  let st := loop E 1 st
  let st := st.emit .fileClose
  st

end PhyRate

/-! ## tcp-80211b.cc: the command line -/

namespace Tcp80211b

/-- The local variables of `main` that are bound to command-line options
(lines 51 to 57). -/
structure Locals where
  nWifi : Nat
  payloadSize : Nat
  dataRate : String
  tcpVariant : String
  phyRate : String
  simulationTime : ℚ
  pcapTracing : Bool
  deriving DecidableEq, Repr

/-- The initial values of the locals (lines 51 to 57). -/
def defaults : Locals :=
  { nWifi := 50
    payloadSize := 1024
    dataRate := "100Mbps"
    tcpVariant := "ns3::TcpNewReno"
    phyRate := "DsssRate11Mbps"
    simulationTime := 1
    pcapTracing := false }

/-- Conversions done by the library class `CommandLine`, taken as
parameters: reading a value of each bound type from the text after `=`
(the reader of a `bool` also sees the current value), and whether the
library itself accepts `--name=value` for a name that the program did not
register. -/
structure CommandLine where
  uint32 : String → Option Nat
  double : String → Option ℚ
  bool : Bool → String → Option Bool
  string : String → Option String
  global : String → String → Bool

/-- Ways in which `cmd.Parse` ends the program. -/
inductive CmdError
  | invalidValue (name value : String)
  | invalidArgument (name value : String)
  deriving DecidableEq, Repr

/-- One option registered with `cmd.AddValue (name, help, variable)`. -/
structure CmdItem where
  name : String
  help : String
  set : CommandLine → String → Locals → Option Locals

/-- The options registered by `main` (lines 61 to 67), in order. -/
def items : List CmdItem :=
  [ { name := "nWifi", help := "Number of STA nodes",
      set := fun P v L => (P.uint32 v).map fun x => { L with nWifi := x } },
    { name := "payloadSize", help := "Payload size in bytes",
      set := fun P v L => (P.uint32 v).map fun x => { L with payloadSize := x } },
    { name := "dataRate", help := "Application data rate",
      set := fun P v L => (P.string v).map fun x => { L with dataRate := x } },
    { name := "tcpVariant",
      help := "Transport protocol to use: TcpTahoe, TcpReno, TcpNewReno, TcpWestwood, TcpWestwoodPlus ",
      set := fun P v L => (P.string v).map fun x => { L with tcpVariant := x } },
    { name := "phyRate",
      help := "Physical layer bitrate: DsssRate11Mbps, DsssRate5_5Mbps, DsssRate2Mbps, DsssRate1Mbps ",
      set := fun P v L => (P.string v).map fun x => { L with phyRate := x } },
    { name := "simulationTime", help := "Simulation time in seconds",
      set := fun P v L => (P.double v).map fun x => { L with simulationTime := x } },
    { name := "pcap", help := "Enable/disable PCAP Tracing",
      set := fun P v L => (P.bool L.pcapTracing v).map fun x => { L with pcapTracing := x } } ]

/-- Handling of one argument `--name=value` by `cmd.Parse`: the first
registered option of that name reads the value into its variable; a name
that is not registered is offered to the library. -/
def handleArgument (P : CommandLine) (name value : String) (L : Locals) :
    Except CmdError Locals :=
  match items.find? fun it => it.name == name with
  | some it =>
    match it.set P value L with
    | some L1 => .ok L1
    | none => .error (.invalidValue name value)
  | none => if P.global name value then .ok L else .error (.invalidArgument name value)

/-- The call `cmd.Parse (argc, argv)` (line 68) on the arguments
`--name=value`, given as pairs, in order. -/
def parse (P : CommandLine) : List (String × String) → Locals → Except CmdError Locals
  | [], L => .ok L
  | (name, value) :: rest, L =>
    match handleArgument P name value L with
    | .ok L1 => parse P rest L1
    | .error e => .error e

end Tcp80211b

/-! ## tcp-80211b.cc: the trial -/

namespace Tcp80211b

/-- Configuration defaults, channel and physical layer (lines 70 to 105). -/
def physicalLayerCalls (payloadSize : Nat) (phyRate : String) : List EngineCall :=
  [ -- No fragmentation
    .configSetDefault "ns3::WifiRemoteStationManager::FragmentationThreshold" (.str "999999"),
    -- Disable RTS/CTS
    .configSetDefault "ns3::WifiRemoteStationManager::RtsCtsThreshold" (.str "999999"),
    -- Configure TCP Options
    .configSetDefault "ns3::TcpSocket::SegmentSize" (.uint payloadSize),
    .construct "WifiMacHelper",
    .construct "WifiHelper",
    .wifiSetStandard "WIFI_PHY_STANDARD_80211b",
    -- Set up Legacy Channel
    .construct "YansWifiChannelHelper",
    .channelSetPropagationDelay "ns3::ConstantSpeedPropagationDelayModel",
    .channelAddPropagationLoss "ns3::FriisPropagationLossModel"
      [("Frequency", .dbl 5000000000)],
    -- Setup Physical Layer
    .phyDefault,
    .channelCreate,
    .phySetChannel,
    .phySet "TxPowerStart" (.dbl 10),
    .phySet "TxPowerEnd" (.dbl 10),
    .phySet "TxPowerLevels" (.uint 1),
    .phySet "TxGain" (.dbl 0),
    .phySet "RxGain" (.dbl 0),
    .phySet "RxNoiseFigure" (.dbl 10),
    .phySet "CcaMode1Threshold" (.dbl (-79)),
    .phySet "EnergyDetectionThreshold" (.dbl (-79 + 3)),
    .phySetErrorRateModel "ns3::YansErrorRateModel",
    .wifiSetRemoteStationManager "ns3::ConstantRateWifiManager"
      [("DataMode", .str phyRate), ("ControlMode", .str phyRate)] ]

/-- Nodes, MAC layer, mobility, internet stack, addresses and routing
(lines 107 to 164). -/
def topologyCalls (nWifi : Nat) : List EngineCall :=
  [ .construct "NodeContainer",
    .nodesCreate .wifiStaNodes nWifi,
    .construct "NodeContainer",
    .nodesCreate .wifiApNode 1,
    -- Configure AP
    .macSetType "ns3::ApWifiMac" [("Ssid", .ssid "network")],
    .wifiInstall .apDevice .wifiApNode,
    -- Configure STA
    .macSetType "ns3::StaWifiMac"
      [("Ssid", .ssid "network"), ("ActiveProbing", .bool false)],
    .wifiInstall .staDevices .wifiStaNodes,
    -- Mobility model
    .construct "MobilityHelper",
    .mobilitySetPositionAllocator "ns3::GridPositionAllocator"
      [("MinX", .dbl 0), ("MinY", .dbl 0), ("DeltaX", .dbl 5), ("DeltaY", .dbl 10),
       ("GridWidth", .uint 3), ("LayoutType", .str "RowFirst")],
    .mobilitySetMobilityModel "ns3::RandomDirection2dMobilityModel"
      [("Bounds", .rectangle (-500) 500 (-500) 500),
       ("Speed", .str "ns3::ConstantRandomVariable[Constant=2]"),
       ("Pause", .str "ns3::ConstantRandomVariable[Constant=0.2]")],
    .mobilityInstall .wifiStaNodes,
    .mobilitySetMobilityModel "ns3::ConstantPositionMobilityModel" [],
    .mobilityInstall .wifiApNode,
    -- Internet stack
    .construct "InternetStackHelper",
    .stackInstall .wifiApNode,
    .stackInstall .wifiStaNodes,
    .construct "Ipv4AddressHelper",
    .addressSetBase "192.168.1.0" "255.255.255.0",
    .addressAssign .staDevices,
    .addressAssign .apDevice,
    -- Populate routing table
    .populateRoutingTables ]

/-- The receiver on the access point and the transmitters on the stations
(lines 166 to 188). -/
def applicationCalls (payloadSize : Nat) (dataRate : String) (simulationTime : ℚ) :
    List EngineCall :=
  let port : Nat := 50000
  [ -- Install TCP Receiver on the access point
    .packetSinkHelper "ns3::TcpSocketFactory" (.inetSocket .any port),
    .packetSinkInstall .wifiApNode 0,
    .appStart .sinkApp 0,
    .appStop .sinkApp (simulationTime + 1),
    -- Install TCP Transmitter on the stations
    .onOffHelper "ns3::TcpSocketFactory" (.ipv4 .any),
    .onOffSetAttribute "OnTime" (.str "ns3::ConstantRandomVariable[Constant=1]"),
    .onOffSetAttribute "OffTime" (.str "ns3::ConstantRandomVariable[Constant=0]"),
    .onOffSetAttribute "PacketSize" (.uint payloadSize),
    .onOffSetAttribute "DataRate" (.dataRate dataRate),
    .onOffSetAttribute "Remote" (.address (.inetSocket (.apInterface 0) port)),
    .construct "ApplicationContainer",
    .onOffInstall .wifiStaNodes,
    .appStart .apps 1,
    .appStop .apps (simulationTime + 1) ]

/-- Enable Traces (lines 190 to 196). -/
def traceCalls (pcapTracing : Bool) : List EngineCall :=
  if pcapTracing then
    [ .phySetPcapDataLinkType "DLT_IEEE802_11_RADIO",
      .phyEnablePcap "AccessPoint" .apDevice,
      .phyEnablePcap "Station" .staDevices ]
  else []

/-- Start Simulation (lines 198 to 201). -/
def simulatorCalls (simulationTime : ℚ) : List EngineCall :=
  [ .simulatorStop (simulationTime + 1),
    .simulatorRun,
    .simulatorDestroy ]

/-- Calls issued by `main` after the command line is parsed, up to and including `Simulator::Destroy ()`, in
source order. -/
def trialCalls (payloadSize nWifi : Nat) (dataRate tcpVariant phyRate : String)
    (simulationTime : ℚ) (pcapTracing : Bool) : List EngineCall :=
  physicalLayerCalls payloadSize phyRate ++ (topologyCalls nWifi ++
    (applicationCalls payloadSize dataRate simulationTime ++
      (traceCalls pcapTracing ++ simulatorCalls simulationTime)))

/-- Lines 70 to 204 of `main`: the trial run with the parsed locals.  The
read of the counter is the last call; it leaves the library state as it is. -/
def trial {σ : Type} (E : Engine σ) (s : σ) (L : Locals) : TrialOutcome σ :=
  let calls := trialCalls L.payloadSize L.nWifi L.dataRate L.tcpVariant L.phyRate
    L.simulationTime L.pcapTracing
  let s1 := exec E s calls
  let totalPacketsThrough : Nat := E.totalRx s1 % 2 ^ 32
  let throughput : ℚ :=
    ((totalPacketsThrough * 8 % 2 ^ 32 : Nat) : ℚ) / (L.simulationTime * 1000000)
  { throughput := throughput, state := s1, trace := calls ++ [.getTotalRx .sinkApp 0] }

/-- What `main` leaves behind: the parsed locals, the trial, and the lines
`"Throughtput: " << throughput << " Mbit/s"` printed to the console, each
given by the value printed. -/
structure MainOutcome (σ : Type) where
  locals : Locals
  globals : List EngineCall
  result : TrialOutcome σ
  console : List ℚ

/-- The arguments that `cmd.Parse` hands to the library: those whose name
the program did not register. -/
def globalCalls (args : List (String × String)) : List EngineCall :=
  (args.filter fun a => items.all fun it => it.name != a.1).map
    fun a => .commandLineGlobal a.1 a.2

/-- The function `main` of `tcp-80211b.cc` on the arguments `--name=value`,
started in library state `s`; an error is an exit inside `cmd.Parse`. -/
def main {σ : Type} (P : CommandLine) (E : Engine σ) (s : σ) (args : List (String × String)) :
    Except CmdError (MainOutcome σ) :=
  match parse P args defaults with
  | .error e => .error e
  | .ok L =>
    let globals := globalCalls args
    let r := trial E (exec E s globals) L
    .ok { locals := L, globals := globals, result := r, console := [r.throughput] }

end Tcp80211b

/-! ## Enumeration order of the sweeps -/

/-- The library state in which trial number `i` (counted from 0) of a sweep
starts, when trial number `j` is the function `trial j` of the library
state it starts in: the state the previous trial left. -/
def stateBefore {σ : Type} (trial : Nat → σ → TrialOutcome σ) (s : σ) : Nat → σ
  | 0 => s
  | i + 1 => (trial i (stateBefore trial s i)).state

/-- The label of the `k`-th application data rate, `k = 1, ..., 8`:
100Mbps up to 800Mbps in steps of 100 Mbps. -/
def DataRate.rateLabel (k : Nat) : String :=
  toString (100 * k) ++ "Mbps"

/-- Trial number `i` of the application-rate sweep in enumeration order:
station count `i / 8 + 1`, application rate number `i % 8 + 1`, payload
1024, physical rate DsssRate11Mbps. -/
def DataRate.gridTrial {σ : Type} (E : Engine σ) (i : Nat) (s : σ) : TrialOutcome σ :=
  DataRate.experiment E s 1024 (i / 8 + 1) (DataRate.rateLabel (i % 8 + 1))
    "ns3::TcpNewReno" "DsssRate11Mbps"

/-- The record of trial number `i` of the application-rate sweep started
in library state `s`. -/
def DataRate.gridRow {σ : Type} (E : Engine σ) (s : σ) (i : Nat) : Line :=
  .row (i / 8 + 1) (DataRate.rateLabel (i % 8 + 1))
    (DataRate.gridTrial E i (stateBefore (DataRate.gridTrial E) s i)).throughput

/-- The physical rates of the physical-rate sweep, in the order swept. -/
def PhyRate.phyRates : List String :=
  ["DsssRate11Mbps", "DsssRate5_5Mbps", "DsssRate2Mbps", "DsssRate1Mbps"]

/-- Trial number `i` of the physical-rate sweep in enumeration order:
station count `i / 4 + 1`, physical rate number `i % 4` of the list,
payload 1024, application rate 100Mbps. -/
def PhyRate.gridTrial {σ : Type} (E : Engine σ) (i : Nat) (s : σ) : TrialOutcome σ :=
  PhyRate.experiment E s 1024 (i / 4 + 1) "100Mbps" "ns3::TcpNewReno"
    (PhyRate.phyRates.getD (i % 4) "")

/-- The record of trial number `i` of the physical-rate sweep started in
library state `s`. -/
def PhyRate.gridRow {σ : Type} (E : Engine σ) (s : σ) (i : Nat) : Line :=
  .row (i / 4 + 1) (PhyRate.phyRates.getD (i % 4) "")
    (PhyRate.gridTrial E i (stateBefore (PhyRate.gridTrial E) s i)).throughput

/-! ## Lock-step of the two sinks -/

/-- Number of trials whose counter read has been issued. -/
def completedTrials (events : List Event) : Nat :=
  events.count (.engine (.getTotalRx .sinkApp 0))

/-- Both sinks hold the same lines, with one data row per completed trial. -/
def Balanced (events : List Event) : Prop :=
  fileLines events = consoleLines events ∧
    (dataRecords (fileLines events)).length = completedTrials events

/-- Whenever a call into the library is issued, the actions before it are
balanced. -/
def LockStep (events : List Event) : Prop :=
  ∀ pre c post, events = pre ++ Event.engine c :: post → Balanced pre

/-! ## Order of the last calls of a trial -/

/-- The calls of a trial end with `Simulator::Stop` at time `t`,
`Simulator::Run`, `Simulator::Destroy` and the read of the sink counter, in
this order, and no call of these four kinds is issued before them. -/
def ReadAfterTeardown (trace : List EngineCall) (t : ℚ) : Prop :=
  ∃ setup, trace = setup ++ [.simulatorStop t, .simulatorRun, .simulatorDestroy,
      .getTotalRx .sinkApp 0] ∧
    ∀ c ∈ setup, (∀ t1, c ≠ .simulatorStop t1) ∧ c ≠ .simulatorRun ∧ c ≠ .simulatorDestroy ∧
      ∀ a i, c ≠ .getTotalRx a i

/-! ## What the calls of a trial describe

The node and application containers of a trial are filled by the library.
The following reading of the container and helper calls is the documented
behaviour of the ns-3 helper API: `Create (n)` adds `n` nodes to a node
container, `PacketSinkHelper::Install (node)` yields one application on that
node, `OnOffHelper::Install (container)` yields one application per node of
the container, configured with the attributes set on the helper so far, and
`Start` and `Stop` on an application container apply to each application in
it. -/

/-- An application installed on node `index` of the node container `group`. -/
structure App where
  group : NodeGroup
  index : Nat
  factory : String
  attrs : List (String × AttrValue)
  start : Option ℚ
  stop : Option ℚ
  deriving DecidableEq, Repr

/-- Set an attribute on a helper, replacing an earlier value of that name. -/
def setAttr (attrs : List (String × AttrValue)) (name : String) (v : AttrValue) :
    List (String × AttrValue) :=
  (attrs.filter fun a => a.1 != name) ++ [(name, v)]

/-- The value of an attribute, if set. -/
def getAttr (attrs : List (String × AttrValue)) (name : String) : Option AttrValue :=
  (attrs.find? fun a => a.1 == name).map fun a => a.2

/-- The scenario described so far: sizes of the two node containers, the
state of the two application helpers, the two application containers and
the stop time given to the simulator. -/
structure Scenario where
  wifiStaNodes : Nat
  wifiApNode : Nat
  packetSinkHelper : Option (String × List (String × AttrValue))
  sinkApp : List App
  onoff : Option (String × List (String × AttrValue))
  apps : List App
  stopTime : Option ℚ
  deriving DecidableEq, Repr

/-- Nothing declared yet. -/
def Scenario.empty : Scenario :=
  { wifiStaNodes := 0, wifiApNode := 0, packetSinkHelper := none, sinkApp := [],
    onoff := none, apps := [], stopTime := none }

/-- Number of nodes in a node container. -/
def Scenario.size (sc : Scenario) : NodeGroup → Nat
  | .wifiStaNodes => sc.wifiStaNodes
  | .wifiApNode => sc.wifiApNode

/-- Effect of one call on the scenario described so far. -/
def Scenario.apply (sc : Scenario) : EngineCall → Scenario
  | .nodesCreate .wifiStaNodes n => { sc with wifiStaNodes := sc.wifiStaNodes + n }
  | .nodesCreate .wifiApNode n => { sc with wifiApNode := sc.wifiApNode + n }
  | .packetSinkHelper factory loc =>
    { sc with packetSinkHelper := some (factory, [("Local", .address loc)]) }
  | .packetSinkInstall g i =>
    match sc.packetSinkHelper with
    | some (factory, attrs) =>
      { sc with sinkApp := [{ group := g, index := i, factory := factory, attrs := attrs,
                              start := none, stop := none }] }
    | none => sc
  | .onOffHelper factory remote =>
    { sc with onoff := some (factory, [("Remote", .address remote)]) }
  | .onOffSetAttribute name v =>
    match sc.onoff with
    | some (factory, attrs) => { sc with onoff := some (factory, setAttr attrs name v) }
    | none => sc
  | .onOffInstall g =>
    match sc.onoff with
    | some (factory, attrs) =>
      { sc with apps := sc.apps ++ (List.range (sc.size g)).map fun i =>
          { group := g, index := i, factory := factory, attrs := attrs,
            start := none, stop := none } }
    | none => sc
  | .appStart .sinkApp t =>
    { sc with sinkApp := sc.sinkApp.map fun a => { a with start := some t } }
  | .appStart .apps t =>
    { sc with apps := sc.apps.map fun a => { a with start := some t } }
  | .appStop .sinkApp t =>
    { sc with sinkApp := sc.sinkApp.map fun a => { a with stop := some t } }
  | .appStop .apps t =>
    { sc with apps := sc.apps.map fun a => { a with stop := some t } }
  | .simulatorStop t => { sc with stopTime := some t }
  | _ => sc

/-- The scenario described by a sequence of calls. -/
def scenarioOf (calls : List EngineCall) : Scenario :=
  calls.foldl Scenario.apply Scenario.empty

/-- Whether a call gives a start or stop time to applications or to the
simulator. -/
def EngineCall.isTiming : EngineCall → Bool
  | .appStart _ _ => true
  | .appStop _ _ => true
  | .simulatorStop _ => true
  | _ => false

/-! ## Where the nodes are placed

The positions of the nodes are given out by the library.  The following
reading of the mobility calls is the documented behaviour of the ns-3
classes `MobilityHelper` and `GridPositionAllocator`:
`SetPositionAllocator` creates one allocator, which the helper keeps;
`SetMobilityModel` chooses the model for the nodes installed afterwards;
`Install (container)` goes through the nodes of the container in order and
gives each a new model of the chosen type and the next position of the
allocator; the allocator of a grid hands out the cells of the grid one
after the other, row by row when the layout is `RowFirst`. -/

/-- A grid position allocator: its attributes and the number of positions
it has handed out. -/
structure GridAllocator where
  minX : ℚ
  minY : ℚ
  deltaX : ℚ
  deltaY : ℚ
  gridWidth : Nat
  rowFirst : Bool
  current : Nat
  deriving DecidableEq, Repr

/-- The allocator created by `SetPositionAllocator (type, attrs)` for the
type `ns3::GridPositionAllocator` with all six attributes given. -/
def GridAllocator.create (type : String) (attrs : List (String × AttrValue)) :
    Option GridAllocator :=
  if type == "ns3::GridPositionAllocator" then
    match getAttr attrs "MinX", getAttr attrs "MinY", getAttr attrs "DeltaX",
      getAttr attrs "DeltaY", getAttr attrs "GridWidth", getAttr attrs "LayoutType" with
    | some (.dbl x), some (.dbl y), some (.dbl dx), some (.dbl dy), some (.uint w),
      some (.str layout) =>
      some { minX := x, minY := y, deltaX := dx, deltaY := dy, gridWidth := w,
             rowFirst := layout == "RowFirst", current := 0 }
    | _, _, _, _, _, _ => none
  else none

/-- The position that the allocator hands out next: cell number `current`
of the grid. -/
def GridAllocator.position (g : GridAllocator) : ℚ × ℚ :=
  if g.rowFirst then
    (g.minX + g.deltaX * ((g.current % g.gridWidth : Nat) : ℚ),
     g.minY + g.deltaY * ((g.current / g.gridWidth : Nat) : ℚ))
  else
    (g.minX + g.deltaX * ((g.current / g.gridWidth : Nat) : ℚ),
     g.minY + g.deltaY * ((g.current % g.gridWidth : Nat) : ℚ))

/-- The allocator after it has handed out a position. -/
def GridAllocator.advance (g : GridAllocator) : GridAllocator :=
  { g with current := g.current + 1 }

/-- A node with the mobility model and the initial position given to it. -/
structure Placed where
  group : NodeGroup
  index : Nat
  model : String
  position : ℚ × ℚ
  deriving DecidableEq, Repr

/-- The state of the mobility helper and the nodes placed so far, together
with the sizes of the two node containers. -/
structure Mobility where
  wifiStaNodes : Nat
  wifiApNode : Nat
  allocator : Option GridAllocator
  model : Option String
  placed : List Placed
  deriving DecidableEq, Repr

/-- Nothing declared yet. -/
def Mobility.empty : Mobility :=
  { wifiStaNodes := 0, wifiApNode := 0, allocator := none, model := none, placed := [] }

/-- Number of nodes in a node container. -/
def Mobility.size (mb : Mobility) : NodeGroup → Nat
  | .wifiStaNodes => mb.wifiStaNodes
  | .wifiApNode => mb.wifiApNode

/-- Install the chosen model on node `i` of container `g`, at the next
position of the allocator. -/
def Mobility.installNode (mb : Mobility) (g : NodeGroup) (i : Nat) : Mobility :=
  match mb.allocator, mb.model with
  | some a, some m =>
    { mb with allocator := some a.advance,
              placed := mb.placed ++ [{ group := g, index := i, model := m,
                                        position := a.position }] }
  | _, _ => mb

/-- Install on the first `count` nodes of container `g`, in order. -/
def Mobility.installNodes (mb : Mobility) (g : NodeGroup) : Nat → Mobility
  | 0 => mb
  | k + 1 => (mb.installNodes g k).installNode g k

/-- Effect of one call on the mobility helper and the placement. -/
def Mobility.apply (mb : Mobility) : EngineCall → Mobility
  | .nodesCreate .wifiStaNodes n => { mb with wifiStaNodes := mb.wifiStaNodes + n }
  | .nodesCreate .wifiApNode n => { mb with wifiApNode := mb.wifiApNode + n }
  | .mobilitySetPositionAllocator type attrs =>
    { mb with allocator := GridAllocator.create type attrs }
  | .mobilitySetMobilityModel type _ => { mb with model := some type }
  | .mobilityInstall g => mb.installNodes g (mb.size g)
  | _ => mb

/-- The placement described by a sequence of calls. -/
def placementOf (calls : List EngineCall) : Mobility :=
  calls.foldl Mobility.apply Mobility.empty

/-! ## Concrete libraries and command lines used in examples -/

/-- A library whose sink counter always reads `b`. -/
def counterEngine (b : Nat) : Engine Unit :=
  { step := fun _ _ => (), totalRx := fun _ => b }

/-- A library whose state is the number of calls so far and whose sink
counter reads a thousand bytes per call. -/
def tickEngine : Engine Nat :=
  { step := fun s _ => s + 1, totalRx := fun s => 1000 * s }

/-- Read a non-empty string of decimal digits. -/
def readNat (v : String) : Option Nat :=
  if v.data.isEmpty then none
  else v.data.foldl
    (fun acc c => acc.bind fun n => if c.isDigit then some (10 * n + (c.toNat - 48)) else none)
    (some 0)

/-- A command line that reads decimal numerals, the words `true` and
`false`, and any text, and accepts no name of its own. -/
def plainCommandLine : Tcp80211b.CommandLine :=
  { uint32 := fun v => readNat v
    double := fun v => (readNat v).map fun n => (n : ℚ)
    bool := fun _ v => if v == "true" then some true else if v == "false" then some false else none
    string := fun v => some v
    global := fun _ _ => false }

/-! ## The metric reduction -/

/-- C1 (failing input).  When the sink has received `2 ^ 29 = 536870912`
bytes, `main` of `tcp-80211b.cc` run with `--simulationTime=1000` and
`experiment` of both sweep drivers report a throughput of `0`, while
`bytesReceived * 8 / (simulationTime * 1000000)` is `4294967296 / 10 ^ 9`
and `4294967296 / 10 ^ 6`: the product `totalPacketsThrough * 8` is taken
in `uint32_t`. -/
theorem throughput_wraps_at_two_pow_29 :
    (Tcp80211b.main plainCommandLine (counterEngine 536870912) ()
        [("simulationTime", "1000")]).map (fun o => o.console) = .ok [0]
    ∧ (536870912 : ℚ) * 8 / (1000 * 1000000) = 4294967296 / 1000000000
    ∧ (DataRate.experiment (counterEngine 536870912) () 1024 1 "100Mbps"
        "ns3::TcpNewReno" "DsssRate11Mbps").throughput = 0
    ∧ (PhyRate.experiment (counterEngine 536870912) () 1024 1 "100Mbps"
        "ns3::TcpNewReno" "DsssRate11Mbps").throughput = 0
    ∧ (536870912 : ℚ) * 8 / (1 * 1000000) = 4294967296 / 1000000 := by
  refine ⟨?_, by norm_num, ?_, ?_, by norm_num⟩
  · have h : Tcp80211b.parse plainCommandLine [("simulationTime", "1000")] Tcp80211b.defaults
        = .ok { Tcp80211b.defaults with simulationTime := 1000 } := by
      have h1 : readNat "1000" = some 1000 := by decide
      simp [Tcp80211b.parse, Tcp80211b.handleArgument, Tcp80211b.items, plainCommandLine,
        Tcp80211b.defaults, h1]
    simp [Tcp80211b.main, h, Tcp80211b.trial, counterEngine, Except.map]
  · simp [DataRate.experiment, counterEngine]
  · simp [PhyRate.experiment, counterEngine]

/-- Below `2 ^ 29` bytes neither the store into `totalPacketsThrough` nor
the product by 8 wraps. -/
theorem bit_count_exact (b : Nat) (h : b < 2 ^ 29) : b % 2 ^ 32 * 8 % 2 ^ 32 = b * 8 := by
  omega

/-- While the sink counter reads less than `2 ^ 29` bytes, the trial of
`tcp-80211b.cc` reports `bytesReceived * 8 / (simulationTime * 1000000)`. -/
theorem throughput_exact_below_two_pow_29 {σ : Type} (E : Engine σ) (s : σ)
    (L : Tcp80211b.Locals)
    (h : E.totalRx (Tcp80211b.trial E s L).state < 2 ^ 29) :
    (Tcp80211b.trial E s L).throughput
      = (E.totalRx (Tcp80211b.trial E s L).state : ℚ) * 8 / (L.simulationTime * 1000000) := by
  simp only [Tcp80211b.trial] at h ⊢
  rw [bit_count_exact _ h]
  push_cast
  ring

/-! ## The sweeps in enumeration order -/

theorem sweep_emit_engine {σ : Type} (st : SweepState σ) (e : Event) :
    (st.emit e).engine = st.engine := rfl

theorem sweep_emit_events {σ : Type} (st : SweepState σ) (e : Event) :
    (st.emit e).events = st.events ++ [e] := rfl

theorem fileLines_append (xs ys : List Event) :
    fileLines (xs ++ ys) = fileLines xs ++ fileLines ys := by
  simp [fileLines, List.filterMap_append]

theorem consoleLines_append (xs ys : List Event) :
    consoleLines (xs ++ ys) = consoleLines xs ++ consoleLines ys := by
  simp [consoleLines, List.filterMap_append]

theorem fileLines_engine (cs : List EngineCall) : fileLines (cs.map Event.engine) = [] := by
  induction cs with
  | nil => rfl
  | cons c cs ih => simp [fileLines]

theorem consoleLines_engine (cs : List EngineCall) :
    consoleLines (cs.map Event.engine) = [] := by
  induction cs with
  | nil => rfl
  | cons c cs ih => simp [consoleLines]

theorem dataRecords_append (xs ys : List Line) :
    dataRecords (xs ++ ys) = dataRecords xs ++ dataRecords ys := by
  simp [dataRecords]

/-- One trial followed by its two writes: the library state and the file
records after it. -/
theorem sweep_record_step {σ : Type} (st : SweepState σ) (trial : σ → TrialOutcome σ)
    (n : Nat) (label : String) :
    let r := trial st.engine
    let st1 := ((st.call trial).2.emit (.file (.row n label r.throughput))).emit
      (.console (.row n label r.throughput))
    st1.engine = r.state ∧
      dataRecords (fileLines st1.events)
        = dataRecords (fileLines st.events) ++ [.row n label r.throughput] := by
  simp [SweepState.call, SweepState.emit, fileLines_append, fileLines_engine,
    dataRecords_append]
  simp [fileLines, dataRecords, Line.isRow]

theorem dataRate_gridTrial_at {σ : Type} (E : Engine σ) (m j : Nat) (hj : j < 8) (s : σ) :
    DataRate.gridTrial E (8 * m + j) s
      = DataRate.experiment E s 1024 (m + 1) (DataRate.rateLabel (j + 1))
          "ns3::TcpNewReno" "DsssRate11Mbps" := by
  have h1 : (8 * m + j) / 8 = m := by omega
  have h2 : (8 * m + j) % 8 = j := by omega
  simp [DataRate.gridTrial, h1, h2]

theorem dataRate_gridRow_at {σ : Type} (E : Engine σ) (s : σ) (m j : Nat) (hj : j < 8) :
    DataRate.gridRow E s (8 * m + j)
      = .row (m + 1) (DataRate.rateLabel (j + 1))
          (DataRate.experiment E (stateBefore (DataRate.gridTrial E) s (8 * m + j)) 1024 (m + 1)
            (DataRate.rateLabel (j + 1)) "ns3::TcpNewReno" "DsssRate11Mbps").throughput := by
  have h1 : (8 * m + j) / 8 = m := by omega
  have h2 : (8 * m + j) % 8 = j := by omega
  simp [DataRate.gridRow, dataRate_gridTrial_at E m j hj, h1, h2]

theorem range_add_eight (a : Nat) :
    List.range (a + 8) = List.range a ++ [a, a + 1, a + 2, a + 3, a + 4, a + 5, a + 6, a + 7] := by
  simp [List.range_succ, ← Nat.add_assoc]

theorem range_add_four (a : Nat) :
    List.range (a + 4) = List.range a ++ [a, a + 1, a + 2, a + 3] := by
  simp [List.range_succ, ← Nat.add_assoc]

/-- The loop body of the application-rate sweep for station count `m + 1`
runs trials `8 * m` to `8 * m + 7` of the enumeration. -/
theorem dataRate_body_inv {σ : Type} (E : Engine σ) (s : σ) (m : Nat) (st : SweepState σ)
    (h1 : st.engine = stateBefore (DataRate.gridTrial E) s (8 * m))
    (h2 : dataRecords (fileLines st.events) = (List.range (8 * m)).map (DataRate.gridRow E s)) :
    (DataRate.body E (m + 1) st).engine = stateBefore (DataRate.gridTrial E) s (8 * (m + 1)) ∧
      dataRecords (fileLines (DataRate.body E (m + 1) st).events)
        = (List.range (8 * (m + 1))).map (DataRate.gridRow E s) := by
  have e : 8 * (m + 1) = 8 * m + 8 := by omega
  have l1 : DataRate.rateLabel 1 = "100Mbps" := by decide
  have l2 : DataRate.rateLabel 2 = "200Mbps" := by decide
  have l3 : DataRate.rateLabel 3 = "300Mbps" := by decide
  have l4 : DataRate.rateLabel 4 = "400Mbps" := by decide
  have l5 : DataRate.rateLabel 5 = "500Mbps" := by decide
  have l6 : DataRate.rateLabel 6 = "600Mbps" := by decide
  have l7 : DataRate.rateLabel 7 = "700Mbps" := by decide
  have l8 : DataRate.rateLabel 8 = "800Mbps" := by decide
  have g0 := dataRate_gridRow_at E s m 0 (by omega)
  have g1 := dataRate_gridRow_at E s m 1 (by omega)
  have g2 := dataRate_gridRow_at E s m 2 (by omega)
  have g3 := dataRate_gridRow_at E s m 3 (by omega)
  have g4 := dataRate_gridRow_at E s m 4 (by omega)
  have g5 := dataRate_gridRow_at E s m 5 (by omega)
  have g6 := dataRate_gridRow_at E s m 6 (by omega)
  have g7 := dataRate_gridRow_at E s m 7 (by omega)
  have t0 := dataRate_gridTrial_at E m 0 (by omega)
  have t1 := dataRate_gridTrial_at E m 1 (by omega)
  have t2 := dataRate_gridTrial_at E m 2 (by omega)
  have t3 := dataRate_gridTrial_at E m 3 (by omega)
  have t4 := dataRate_gridTrial_at E m 4 (by omega)
  have t5 := dataRate_gridTrial_at E m 5 (by omega)
  have t6 := dataRate_gridTrial_at E m 6 (by omega)
  have t7 := dataRate_gridTrial_at E m 7 (by omega)
  simp only [Nat.add_zero, Nat.zero_add, l1, l2, l3, l4, l5, l6, l7, l8] at g0 g1 g2 g3 g4 g5 g6 g7 t0 t1 t2 t3 t4 t5 t6 t7
  have hs : (DataRate.body E (m + 1) st).engine
      = stateBefore (DataRate.gridTrial E) s (8 * m + 8) := by
    simp only [stateBefore, t0, t1, t2, t3, t4, t5, t6, t7, ← h1]
    simp only [DataRate.body, SweepState.call, SweepState.emit]
  refine ⟨by rw [e]; exact hs, ?_⟩
  rw [e, range_add_eight, List.map_append, ← h2]
  simp only [List.map_cons, List.map_nil, g0, g1, g2, g3, g4, g5, g6, g7]
  simp only [stateBefore, t0, t1, t2, t3, t4, t5, t6, t7, ← h1]
  simp only [DataRate.body, SweepState.call, SweepState.emit, fileLines_append,
    fileLines_engine, dataRecords_append, List.append_assoc, List.nil_append]
  simp [fileLines, dataRecords, Line.isRow]

/-- Induction over the loop of the application-rate sweep: a property that
every pass of the body carries from station count `m` to `m + 1` holds
for 50 when the loop, entered at `m + 1`, ends. -/
theorem dataRate_loop_induct {σ : Type} (E : Engine σ) (P : Nat → SweepState σ → Prop)
    (hstep : ∀ m st, m < 50 → P m st → P (m + 1) (DataRate.body E (m + 1) st)) :
    ∀ d m st, m + d = 50 → P m st → P 50 (DataRate.loop E (m + 1) st) := by
  intro d
  induction d with
  | zero =>
    intro m st hm h
    have h50 : m = 50 := by omega
    subst h50
    rw [DataRate.loop]
    simpa using h
  | succ d ih =>
    intro m st hm h
    rw [DataRate.loop]
    have hle : m + 1 ≤ 50 := by omega
    simp only [hle, if_true]
    exact ih (m + 1) _ (by omega) (hstep m st (by omega) h)

/-- The data file of the application-rate sweep holds the records of
trials 0 to 399 of the enumeration, in order. -/
theorem dataRate_main_records {σ : Type} (E : Engine σ) (s : σ) :
    dataRecords (fileLines (DataRate.main E s).events)
      = (List.range 400).map (DataRate.gridRow E s) := by
  have key := dataRate_loop_induct E
    (fun m st => st.engine = stateBefore (DataRate.gridTrial E) s (8 * m) ∧
      dataRecords (fileLines st.events) = (List.range (8 * m)).map (DataRate.gridRow E s))
    (fun m st _ h => dataRate_body_inv E s m st h.1 h.2)
    50 0
    (((({ engine := s, events := [] } : SweepState σ).emit (.fileOpen "dataRate.dat")).emit
      (.file (.header "nWifi" "dataRate" "throughput"))).emit
      (.console (.header "nWifi" "dataRate" "throughput")))
    (by omega)
    ⟨rfl, by simp [SweepState.emit, fileLines, dataRecords, Line.isRow]⟩
  have h2 := key.2
  simp only [DataRate.main, sweep_emit_events, fileLines_append, dataRecords_append]
  rw [h2]
  simp [fileLines, dataRecords]

/-- C3.  `main` of `codes/dataRate.cc` writes exactly `50 * 8 = 400` data
records, and for every station count `n` in 1..50 and every `k` in 1..8 the
record at position `8 * (n - 1) + (k - 1)` carries `n`, the label
`<100 * k>Mbps`, and the throughput that `experiment` returns when it is
called, in the library state the earlier trials of the enumeration left,
with payload 1024, station count `n`, that application rate and the
physical rate DsssRate11Mbps. -/
theorem dataRate_sweep_enumeration {σ : Type} (E : Engine σ) (s : σ) :
    (dataRecords (fileLines (DataRate.main E s).events)).length = 400 ∧
    ∀ n k : Nat, 1 ≤ n → n ≤ 50 → 1 ≤ k → k ≤ 8 →
      (dataRecords (fileLines (DataRate.main E s).events))[8 * (n - 1) + (k - 1)]?
        = some (.row n (toString (100 * k) ++ "Mbps")
            (DataRate.experiment E
              (stateBefore (DataRate.gridTrial E) s (8 * (n - 1) + (k - 1)))
              1024 n (toString (100 * k) ++ "Mbps") "ns3::TcpNewReno"
              "DsssRate11Mbps").throughput) := by
  rw [dataRate_main_records]
  refine ⟨by simp, ?_⟩
  intro n k hn1 hn2 hk1 hk2
  have hi : 8 * (n - 1) + (k - 1) < 400 := by omega
  have hrow := dataRate_gridRow_at E s (n - 1) (k - 1) (by omega)
  have en : n - 1 + 1 = n := by omega
  have ek : k - 1 + 1 = k := by omega
  rw [en, ek] at hrow
  rw [List.getElem?_map, List.getElem?_range hi]
  simpa [DataRate.rateLabel] using hrow

/-- C3 (example): the first record of the application-rate sweep. -/
theorem dataRate_sweep_enumeration_witness :
    1 ≤ 1 ∧ 1 ≤ 50 ∧ 1 ≤ 1 ∧ 1 ≤ 8 ∧
    (dataRecords (fileLines (DataRate.main tickEngine 0).events))[8 * (1 - 1) + (1 - 1)]?
      = some (.row 1 (toString (100 * 1) ++ "Mbps")
          (DataRate.experiment tickEngine
            (stateBefore (DataRate.gridTrial tickEngine) 0 (8 * (1 - 1) + (1 - 1)))
            1024 1 (toString (100 * 1) ++ "Mbps") "ns3::TcpNewReno"
            "DsssRate11Mbps").throughput) :=
  ⟨by decide, by decide, by decide, by decide,
    (dataRate_sweep_enumeration tickEngine 0).2 1 1 (by decide) (by decide) (by decide)
      (by decide)⟩

theorem phyRate_rate_index (j : Nat) (r : String) (h : PhyRate.phyRates[j]? = some r) :
    j < 4 ∧ PhyRate.phyRates.getD j "" = r := by
  match j, h with
  | 0, h => simp [PhyRate.phyRates] at h; simp [PhyRate.phyRates, h]
  | 1, h => simp [PhyRate.phyRates] at h; simp [PhyRate.phyRates, h]
  | 2, h => simp [PhyRate.phyRates] at h; simp [PhyRate.phyRates, h]
  | 3, h => simp [PhyRate.phyRates] at h; simp [PhyRate.phyRates, h]
  | j + 4, h => simp [PhyRate.phyRates] at h

theorem phyRate_gridTrial_at {σ : Type} (E : Engine σ) (m j : Nat) (r : String)
    (hj : PhyRate.phyRates[j]? = some r) (s : σ) :
    PhyRate.gridTrial E (4 * m + j) s
      = PhyRate.experiment E s 1024 (m + 1) "100Mbps" "ns3::TcpNewReno" r := by
  obtain ⟨hlt, hr⟩ := phyRate_rate_index j r hj
  have h1 : (4 * m + j) / 4 = m := by omega
  have h2 : (4 * m + j) % 4 = j := by omega
  simp only [PhyRate.gridTrial, h1, h2, hr]

theorem phyRate_gridRow_at {σ : Type} (E : Engine σ) (s : σ) (m j : Nat) (r : String)
    (hj : PhyRate.phyRates[j]? = some r) :
    PhyRate.gridRow E s (4 * m + j)
      = .row (m + 1) r
          (PhyRate.experiment E (stateBefore (PhyRate.gridTrial E) s (4 * m + j)) 1024 (m + 1)
            "100Mbps" "ns3::TcpNewReno" r).throughput := by
  obtain ⟨hlt, hr⟩ := phyRate_rate_index j r hj
  have h1 : (4 * m + j) / 4 = m := by omega
  have h2 : (4 * m + j) % 4 = j := by omega
  simp only [PhyRate.gridRow, phyRate_gridTrial_at E m j r hj, h1, h2, hr]

/-- The loop body of the physical-rate sweep for station count `m + 1`
runs trials `4 * m` to `4 * m + 3` of the enumeration. -/
theorem phyRate_body_inv {σ : Type} (E : Engine σ) (s : σ) (m : Nat) (st : SweepState σ)
    (h1 : st.engine = stateBefore (PhyRate.gridTrial E) s (4 * m))
    (h2 : dataRecords (fileLines st.events) = (List.range (4 * m)).map (PhyRate.gridRow E s)) :
    (PhyRate.body E (m + 1) st).engine = stateBefore (PhyRate.gridTrial E) s (4 * (m + 1)) ∧
      dataRecords (fileLines (PhyRate.body E (m + 1) st).events)
        = (List.range (4 * (m + 1))).map (PhyRate.gridRow E s) := by
  have e : 4 * (m + 1) = 4 * m + 4 := by omega
  have g0 := phyRate_gridRow_at E s m 0 "DsssRate11Mbps" (by simp [PhyRate.phyRates])
  have g1 := phyRate_gridRow_at E s m 1 "DsssRate5_5Mbps" (by simp [PhyRate.phyRates])
  have g2 := phyRate_gridRow_at E s m 2 "DsssRate2Mbps" (by simp [PhyRate.phyRates])
  have g3 := phyRate_gridRow_at E s m 3 "DsssRate1Mbps" (by simp [PhyRate.phyRates])
  have t0 := phyRate_gridTrial_at E m 0 "DsssRate11Mbps" (by simp [PhyRate.phyRates])
  have t1 := phyRate_gridTrial_at E m 1 "DsssRate5_5Mbps" (by simp [PhyRate.phyRates])
  have t2 := phyRate_gridTrial_at E m 2 "DsssRate2Mbps" (by simp [PhyRate.phyRates])
  have t3 := phyRate_gridTrial_at E m 3 "DsssRate1Mbps" (by simp [PhyRate.phyRates])
  simp only [Nat.add_zero] at g0 t0
  have hs : (PhyRate.body E (m + 1) st).engine
      = stateBefore (PhyRate.gridTrial E) s (4 * m + 4) := by
    simp only [stateBefore, t0, t1, t2, t3, ← h1]
    simp only [PhyRate.body, SweepState.call, SweepState.emit]
  refine ⟨by rw [e]; exact hs, ?_⟩
  rw [e, range_add_four, List.map_append, ← h2]
  simp only [List.map_cons, List.map_nil, g0, g1, g2, g3]
  simp only [stateBefore, t0, t1, t2, t3, ← h1]
  simp only [PhyRate.body, SweepState.call, SweepState.emit, fileLines_append,
    fileLines_engine, dataRecords_append, List.append_assoc, List.nil_append]
  simp [fileLines, dataRecords, Line.isRow]

/-- Induction over the loop of the physical-rate sweep. -/
theorem phyRate_loop_induct {σ : Type} (E : Engine σ) (P : Nat → SweepState σ → Prop)
    (hstep : ∀ m st, m < 50 → P m st → P (m + 1) (PhyRate.body E (m + 1) st)) :
    ∀ d m st, m + d = 50 → P m st → P 50 (PhyRate.loop E (m + 1) st) := by
  intro d
  induction d with
  | zero =>
    intro m st hm h
    have h50 : m = 50 := by omega
    subst h50
    rw [PhyRate.loop]
    simpa using h
  | succ d ih =>
    intro m st hm h
    rw [PhyRate.loop]
    have hle : m + 1 ≤ 50 := by omega
    simp only [hle, if_true]
    exact ih (m + 1) _ (by omega) (hstep m st (by omega) h)

/-- The data file of the physical-rate sweep holds the records of trials 0
to 199 of the enumeration, in order. -/
theorem phyRate_main_records {σ : Type} (E : Engine σ) (s : σ) :
    dataRecords (fileLines (PhyRate.main E s).events)
      = (List.range 200).map (PhyRate.gridRow E s) := by
  have key := phyRate_loop_induct E
    (fun m st => st.engine = stateBefore (PhyRate.gridTrial E) s (4 * m) ∧
      dataRecords (fileLines st.events) = (List.range (4 * m)).map (PhyRate.gridRow E s))
    (fun m st _ h => phyRate_body_inv E s m st h.1 h.2)
    50 0
    (((({ engine := s, events := [] } : SweepState σ).emit (.fileOpen "phyRate.dat")).emit
      (.file (.header "nWifi" "phyRate" "throughput"))).emit
      (.console (.header "nWifi" "phyRate" "throughput")))
    (by omega)
    ⟨rfl, by simp [SweepState.emit, fileLines, dataRecords, Line.isRow]⟩
  have h2 := key.2
  simp only [PhyRate.main, sweep_emit_events, fileLines_append, dataRecords_append]
  rw [h2]
  simp [fileLines, dataRecords]

/-- C2.  `main` of `codes/phyRate.cc` writes exactly `50 * 4 = 200` data
records, and for every station count `n` in 1..50 and every index `j` the
record at position `4 * (n - 1) + j` carries `n`, the rate `r` at index `j`
of the list DsssRate11Mbps, DsssRate5_5Mbps, DsssRate2Mbps, DsssRate1Mbps,
and the throughput that `experiment` returns when it is called, in the
library state the earlier trials of the enumeration left, with payload
1024, station count `n`, application rate 100Mbps and physical rate `r`. -/
theorem phyRate_sweep_enumeration {σ : Type} (E : Engine σ) (s : σ) :
    (dataRecords (fileLines (PhyRate.main E s).events)).length = 200 ∧
    ∀ (n j : Nat) (r : String), 1 ≤ n → n ≤ 50 →
      ["DsssRate11Mbps", "DsssRate5_5Mbps", "DsssRate2Mbps", "DsssRate1Mbps"][j]? = some r →
      (dataRecords (fileLines (PhyRate.main E s).events))[4 * (n - 1) + j]?
        = some (.row n r
            (PhyRate.experiment E (stateBefore (PhyRate.gridTrial E) s (4 * (n - 1) + j))
              1024 n "100Mbps" "ns3::TcpNewReno" r).throughput) := by
  rw [phyRate_main_records]
  refine ⟨by simp, ?_⟩
  intro n j r hn1 hn2 hj
  have hj2 : PhyRate.phyRates[j]? = some r := hj
  obtain ⟨hlt, -⟩ := phyRate_rate_index j r hj2
  have hi : 4 * (n - 1) + j < 200 := by omega
  have hrow := phyRate_gridRow_at E s (n - 1) j r hj2
  have en : n - 1 + 1 = n := by omega
  rw [en] at hrow
  rw [List.getElem?_map, List.getElem?_range hi]
  simpa using hrow

/-- C2 (example): the record of the third rate at station count 2. -/
theorem phyRate_sweep_enumeration_witness :
    1 ≤ 2 ∧ 2 ≤ 50 ∧
    ["DsssRate11Mbps", "DsssRate5_5Mbps", "DsssRate2Mbps", "DsssRate1Mbps"][2]?
      = some "DsssRate2Mbps" ∧
    (dataRecords (fileLines (PhyRate.main tickEngine 0).events))[4 * (2 - 1) + 2]?
      = some (.row 2 "DsssRate2Mbps"
          (PhyRate.experiment tickEngine
            (stateBefore (PhyRate.gridTrial tickEngine) 0 (4 * (2 - 1) + 2))
            1024 2 "100Mbps" "ns3::TcpNewReno" "DsssRate2Mbps").throughput) :=
  ⟨by decide, by decide, by decide,
    (phyRate_sweep_enumeration tickEngine 0).2 2 2 "DsssRate2Mbps" (by decide) (by decide)
      (by decide)⟩

/-! ## Lock-step of the two sinks -/

theorem fileLines_one_call (c : EngineCall) : fileLines [Event.engine c] = [] := rfl

theorem fileLines_one_file (l : Line) : fileLines [Event.file l] = [l] := rfl

theorem fileLines_one_console (l : Line) : fileLines [Event.console l] = [] := rfl

theorem consoleLines_one_call (c : EngineCall) : consoleLines [Event.engine c] = [] := rfl

theorem consoleLines_one_file (l : Line) : consoleLines [Event.file l] = [] := rfl

theorem consoleLines_one_console (l : Line) : consoleLines [Event.console l] = [l] := rfl

theorem lockStep_snoc (acc : List Event) (e : Event) (h : LockStep acc)
    (he : ∀ c, e = Event.engine c → Balanced acc) : LockStep (acc ++ [e]) := by
  intro pre c post hsplit
  rcases List.eq_nil_or_concat post with hnil | ⟨post1, x, hx⟩
  · subst hnil
    have h2 := List.append_inj' hsplit rfl
    have h3 : e = Event.engine c := by simpa using h2.2
    rw [← h2.1]
    exact he c h3
  · subst hx
    have h1 : acc ++ [e] = (pre ++ Event.engine c :: post1) ++ [x] := by
      simpa [List.append_assoc] using hsplit
    have h2 := List.append_inj' h1 rfl
    exact h pre c post1 h2.1

theorem balanced_snoc_call (acc : List Event) (c : EngineCall)
    (hc : c ≠ EngineCall.getTotalRx .sinkApp 0) (h : Balanced acc) :
    Balanced (acc ++ [Event.engine c]) := by
  obtain ⟨h1, h2⟩ := h
  refine ⟨?_, ?_⟩
  · simp only [fileLines_append, consoleLines_append, h1, fileLines_one_call,
      consoleLines_one_call]
  · have hne : (Event.engine c == Event.engine (EngineCall.getTotalRx .sinkApp 0)) = false := by
      simpa using hc
    simp only [fileLines_append, fileLines_one_call, List.append_nil, h2, completedTrials,
      List.count_append, List.count_cons, List.count_nil, hne]
    simp

/-- Issuing calls other than the counter read keeps the actions balanced
and in lock-step. -/
theorem lockStep_append_calls (cs : List EngineCall)
    (hcs : ∀ c ∈ cs, c ≠ EngineCall.getTotalRx .sinkApp 0) :
    ∀ acc : List Event, LockStep acc → Balanced acc →
      LockStep (acc ++ cs.map Event.engine) ∧ Balanced (acc ++ cs.map Event.engine) := by
  induction cs with
  | nil => intro acc h1 h2; simpa using ⟨h1, h2⟩
  | cons c cs ih =>
    intro acc h1 h2
    have hc : c ≠ EngineCall.getTotalRx .sinkApp 0 := hcs c (List.mem_cons_self _ _)
    have h3 : LockStep (acc ++ [Event.engine c]) := lockStep_snoc acc _ h1 (fun _ _ => h2)
    have h4 : Balanced (acc ++ [Event.engine c]) := balanced_snoc_call acc c hc h2
    have := ih (fun c hc => hcs c (List.mem_cons_of_mem _ hc)) _ h3 h4
    simpa [List.append_assoc] using this

/-- A trial whose only counter read is its last call, followed by its two
writes, keeps the actions balanced and in lock-step. -/
theorem lockStep_record_step {σ : Type} (st : SweepState σ) (trial : σ → TrialOutcome σ)
    (n : Nat) (label : String) (cs : List EngineCall)
    (htrace : (trial st.engine).trace = cs ++ [EngineCall.getTotalRx .sinkApp 0])
    (hcs : ∀ c ∈ cs, c ≠ EngineCall.getTotalRx .sinkApp 0)
    (h : LockStep st.events ∧ Balanced st.events) :
    LockStep (((st.call trial).2.emit (.file (.row n label (st.call trial).1))).emit
        (.console (.row n label (st.call trial).1))).events ∧
      Balanced (((st.call trial).2.emit (.file (.row n label (st.call trial).1))).emit
        (.console (.row n label (st.call trial).1))).events := by
  obtain ⟨h1, h2⟩ := lockStep_append_calls cs hcs st.events h.1 h.2
  have h3 : LockStep (st.events ++ cs.map Event.engine
      ++ [Event.engine (EngineCall.getTotalRx .sinkApp 0)]) :=
    lockStep_snoc _ _ h1 (fun _ _ => h2)
  have h4 := lockStep_snoc _ (Event.file (.row n label (st.call trial).1)) h3
    (fun c hc => by cases hc)
  have h5 := lockStep_snoc _ (Event.console (.row n label (st.call trial).1)) h4
    (fun c hc => by cases hc)
  have hev : (((st.call trial).2.emit (.file (.row n label (st.call trial).1))).emit
        (.console (.row n label (st.call trial).1))).events
      = st.events ++ cs.map Event.engine ++ [Event.engine (EngineCall.getTotalRx .sinkApp 0)]
        ++ [Event.file (.row n label (st.call trial).1)]
        ++ [Event.console (.row n label (st.call trial).1)] := by
    simp [SweepState.call, SweepState.emit, htrace, List.append_assoc]
  rw [hev]
  refine ⟨h5, ?_⟩
  obtain ⟨b1, b2⟩ := h2
  refine ⟨?_, ?_⟩
  · simp only [fileLines_append, consoleLines_append, fileLines_one_call,
      consoleLines_one_call, fileLines_one_file, consoleLines_one_file, fileLines_one_console,
      consoleLines_one_console, List.append_nil] at b1 ⊢
    rw [b1]
  · simp only [fileLines_append, fileLines_one_call, fileLines_one_file,
      fileLines_one_console, List.append_nil, dataRecords_append, List.length_append,
      completedTrials, List.count_append] at b2 ⊢
    rw [b2]
    simp [dataRecords, Line.isRow, List.count_cons]

theorem dataRate_calls_no_read (payloadSize nWifi : Nat) (dataRate tcpVariant phyRate : String) :
    ∀ c ∈ DataRate.trialCalls payloadSize nWifi dataRate tcpVariant phyRate 1 false,
      c ≠ EngineCall.getTotalRx .sinkApp 0 := by
  intro c hc
  simp only [DataRate.trialCalls, DataRate.physicalLayerCalls, DataRate.topologyCalls,
    DataRate.applicationCalls, DataRate.traceCalls, DataRate.simulatorCalls, List.mem_append,
    List.mem_cons, List.mem_singleton, Bool.false_eq_true, if_false, List.not_mem_nil,
    or_false] at hc
  rcases hc with h | h | h | h
  all_goals
    rcases h with h | h
    repeat (first | (subst h; simp) | (rcases h with h | h))

theorem dataRate_body_lockStep {σ : Type} (E : Engine σ) (n : Nat) (st : SweepState σ)
    (h : LockStep st.events ∧ Balanced st.events) :
    LockStep (DataRate.body E n st).events ∧ Balanced (DataRate.body E n st).events := by
  have b0 := lockStep_record_step _ (fun s => DataRate.experiment E s 1024 n "100Mbps" "ns3::TcpNewReno" "DsssRate11Mbps") n "100Mbps"
    _ rfl (dataRate_calls_no_read _ _ _ _ _) h
  have b1 := lockStep_record_step _ (fun s => DataRate.experiment E s 1024 n "200Mbps" "ns3::TcpNewReno" "DsssRate11Mbps") n "200Mbps"
    _ rfl (dataRate_calls_no_read _ _ _ _ _) b0
  have b2 := lockStep_record_step _ (fun s => DataRate.experiment E s 1024 n "300Mbps" "ns3::TcpNewReno" "DsssRate11Mbps") n "300Mbps"
    _ rfl (dataRate_calls_no_read _ _ _ _ _) b1
  have b3 := lockStep_record_step _ (fun s => DataRate.experiment E s 1024 n "400Mbps" "ns3::TcpNewReno" "DsssRate11Mbps") n "400Mbps"
    _ rfl (dataRate_calls_no_read _ _ _ _ _) b2
  have b4 := lockStep_record_step _ (fun s => DataRate.experiment E s 1024 n "500Mbps" "ns3::TcpNewReno" "DsssRate11Mbps") n "500Mbps"
    _ rfl (dataRate_calls_no_read _ _ _ _ _) b3
  have b5 := lockStep_record_step _ (fun s => DataRate.experiment E s 1024 n "600Mbps" "ns3::TcpNewReno" "DsssRate11Mbps") n "600Mbps"
    _ rfl (dataRate_calls_no_read _ _ _ _ _) b4
  have b6 := lockStep_record_step _ (fun s => DataRate.experiment E s 1024 n "700Mbps" "ns3::TcpNewReno" "DsssRate11Mbps") n "700Mbps"
    _ rfl (dataRate_calls_no_read _ _ _ _ _) b5
  have b7 := lockStep_record_step _ (fun s => DataRate.experiment E s 1024 n "800Mbps" "ns3::TcpNewReno" "DsssRate11Mbps") n "800Mbps"
    _ rfl (dataRate_calls_no_read _ _ _ _ _) b6
  exact b7

theorem dataRate_main_lockStep {σ : Type} (E : Engine σ) (s : σ) :
    LockStep (DataRate.main E s).events ∧ Balanced (DataRate.main E s).events := by
  have h0 : LockStep [Event.fileOpen "dataRate.dat",
      Event.file (.header "nWifi" "dataRate" "throughput"),
      Event.console (.header "nWifi" "dataRate" "throughput")] ∧
      Balanced [Event.fileOpen "dataRate.dat",
      Event.file (.header "nWifi" "dataRate" "throughput"),
      Event.console (.header "nWifi" "dataRate" "throughput")] := by
    refine ⟨?_, ?_⟩
    · intro pre c post hsplit
      match pre, hsplit with
      | [], hsplit => simp at hsplit
      | [_], hsplit => simp at hsplit
      | [_, _], hsplit => simp at hsplit
      | _ :: _ :: _ :: pre1, hsplit => simp at hsplit
    · exact ⟨rfl, rfl⟩
  have key := dataRate_loop_induct E (fun _ st => LockStep st.events ∧ Balanced st.events)
    (fun m st _ h => dataRate_body_lockStep E (m + 1) st h) 50 0
    (((({ engine := s, events := [] } : SweepState σ).emit (.fileOpen "dataRate.dat")).emit
      (.file (.header "nWifi" "dataRate" "throughput"))).emit
      (.console (.header "nWifi" "dataRate" "throughput")))
    (by omega) h0
  obtain ⟨k1, k2, k3⟩ := key
  have hm : (DataRate.main E s).events = (DataRate.loop E 1
      (((({ engine := s, events := [] } : SweepState σ).emit (.fileOpen "dataRate.dat")).emit
      (.file (.header "nWifi" "dataRate" "throughput"))).emit
      (.console (.header "nWifi" "dataRate" "throughput")))).events ++ [Event.fileClose] := rfl
  rw [hm]
  refine ⟨lockStep_snoc _ _ k1 (fun c hc => by cases hc), ?_, ?_⟩
  · rw [fileLines_append, consoleLines_append, k2]
    rfl
  · rw [fileLines_append, completedTrials, List.count_append]
    simpa [fileLines, completedTrials] using k3

theorem phyRate_calls_no_read (payloadSize nWifi : Nat) (dataRate tcpVariant phyRate : String) :
    ∀ c ∈ PhyRate.trialCalls payloadSize nWifi dataRate tcpVariant phyRate 1 false,
      c ≠ EngineCall.getTotalRx .sinkApp 0 := by
  intro c hc
  simp only [PhyRate.trialCalls, PhyRate.physicalLayerCalls, PhyRate.topologyCalls,
    PhyRate.applicationCalls, PhyRate.traceCalls, PhyRate.simulatorCalls, List.mem_append,
    List.mem_cons, List.mem_singleton, Bool.false_eq_true, if_false, List.not_mem_nil,
    or_false] at hc
  rcases hc with h | h | h | h
  all_goals
    rcases h with h | h
    repeat (first | (subst h; simp) | (rcases h with h | h))

theorem phyRate_body_lockStep {σ : Type} (E : Engine σ) (n : Nat) (st : SweepState σ)
    (h : LockStep st.events ∧ Balanced st.events) :
    LockStep (PhyRate.body E n st).events ∧ Balanced (PhyRate.body E n st).events := by
  have b0 := lockStep_record_step _ (fun s => PhyRate.experiment E s 1024 n "100Mbps" "ns3::TcpNewReno" "DsssRate11Mbps") n "DsssRate11Mbps"
    _ rfl (phyRate_calls_no_read _ _ _ _ _) h
  have b1 := lockStep_record_step _ (fun s => PhyRate.experiment E s 1024 n "100Mbps" "ns3::TcpNewReno" "DsssRate5_5Mbps") n "DsssRate5_5Mbps"
    _ rfl (phyRate_calls_no_read _ _ _ _ _) b0
  have b2 := lockStep_record_step _ (fun s => PhyRate.experiment E s 1024 n "100Mbps" "ns3::TcpNewReno" "DsssRate2Mbps") n "DsssRate2Mbps"
    _ rfl (phyRate_calls_no_read _ _ _ _ _) b1
  have b3 := lockStep_record_step _ (fun s => PhyRate.experiment E s 1024 n "100Mbps" "ns3::TcpNewReno" "DsssRate1Mbps") n "DsssRate1Mbps"
    _ rfl (phyRate_calls_no_read _ _ _ _ _) b2
  exact b3

theorem phyRate_main_lockStep {σ : Type} (E : Engine σ) (s : σ) :
    LockStep (PhyRate.main E s).events ∧ Balanced (PhyRate.main E s).events := by
  have h0 : LockStep [Event.fileOpen "phyRate.dat",
      Event.file (.header "nWifi" "phyRate" "throughput"),
      Event.console (.header "nWifi" "phyRate" "throughput")] ∧
      Balanced [Event.fileOpen "phyRate.dat",
      Event.file (.header "nWifi" "phyRate" "throughput"),
      Event.console (.header "nWifi" "phyRate" "throughput")] := by
    refine ⟨?_, ?_⟩
    · intro pre c post hsplit
      match pre, hsplit with
      | [], hsplit => simp at hsplit
      | [_], hsplit => simp at hsplit
      | [_, _], hsplit => simp at hsplit
      | _ :: _ :: _ :: pre1, hsplit => simp at hsplit
    · exact ⟨rfl, rfl⟩
  have key := phyRate_loop_induct E (fun _ st => LockStep st.events ∧ Balanced st.events)
    (fun m st _ h => phyRate_body_lockStep E (m + 1) st h) 50 0
    (((({ engine := s, events := [] } : SweepState σ).emit (.fileOpen "phyRate.dat")).emit
      (.file (.header "nWifi" "phyRate" "throughput"))).emit
      (.console (.header "nWifi" "phyRate" "throughput")))
    (by omega) h0
  obtain ⟨k1, k2, k3⟩ := key
  have hm : (PhyRate.main E s).events = (PhyRate.loop E 1
      (((({ engine := s, events := [] } : SweepState σ).emit (.fileOpen "phyRate.dat")).emit
      (.file (.header "nWifi" "phyRate" "throughput"))).emit
      (.console (.header "nWifi" "phyRate" "throughput")))).events ++ [Event.fileClose] := rfl
  rw [hm]
  refine ⟨lockStep_snoc _ _ k1 (fun c hc => by cases hc), ?_, ?_⟩
  · rw [fileLines_append, consoleLines_append, k2]
    rfl
  · rw [fileLines_append, completedTrials, List.count_append]
    simpa [fileLines, completedTrials] using k3

theorem sweep_record_events {σ : Type} (st : SweepState σ) (trial : σ → TrialOutcome σ)
    (a b : Event) :
    (((st.call trial).2.emit a).emit b).events
      = st.events ++ ((trial st.engine).trace.map Event.engine ++ [a, b]) := by
  simp [SweepState.call, SweepState.emit]

/-- A trial and its two writes only append to the actions. -/
theorem sweep_record_keeps {σ : Type} (pre : List Event) (st : SweepState σ)
    (trial : σ → TrialOutcome σ) (n : Nat) (label : String)
    (h : ∃ rest, st.events = pre ++ rest) :
    ∃ rest, (((st.call trial).2.emit (.file (.row n label (st.call trial).1))).emit
        (.console (.row n label (st.call trial).1))).events = pre ++ rest := by
  obtain ⟨rest, hr⟩ := h
  exact ⟨rest ++ ((trial st.engine).trace.map Event.engine ++ _), by
    rw [sweep_record_events, hr, List.append_assoc]⟩

theorem dataRate_trace_head {σ : Type} (E : Engine σ) (s : σ) (payloadSize nWifi : Nat)
    (dataRate tcpVariant phyRate : String) :
    ∃ rest, (DataRate.experiment E s payloadSize nWifi dataRate tcpVariant phyRate).trace
      = EngineCall.configSetDefault "ns3::WifiRemoteStationManager::FragmentationThreshold"
          (.str "999999") :: rest :=
  ⟨_, rfl⟩

/-- Every pass of the loop body of the application-rate sweep appends to
the actions, and what it appends starts with the first call of a trial. -/
theorem dataRate_body_extends {σ : Type} (E : Engine σ) (n : Nat) (st : SweepState σ) :
    ∃ rest, (DataRate.body E n st).events = st.events ++ Event.engine
      (.configSetDefault "ns3::WifiRemoteStationManager::FragmentationThreshold"
        (.str "999999")) :: rest := by
  have b0 : ∃ rest, (((st.call (fun s => DataRate.experiment E s 1024 n "100Mbps"
        "ns3::TcpNewReno" "DsssRate11Mbps")).2.emit (.file (.row n "100Mbps" (st.call
        (fun s => DataRate.experiment E s 1024 n "100Mbps" "ns3::TcpNewReno"
          "DsssRate11Mbps")).1))).emit (.console (.row n "100Mbps" (st.call
        (fun s => DataRate.experiment E s 1024 n "100Mbps" "ns3::TcpNewReno"
          "DsssRate11Mbps")).1))).events
      = (st.events ++ [Event.engine (.configSetDefault
          "ns3::WifiRemoteStationManager::FragmentationThreshold" (.str "999999"))])
        ++ rest := by
    obtain ⟨rest, hr⟩ := dataRate_trace_head E st.engine 1024 n "100Mbps" "ns3::TcpNewReno"
      "DsssRate11Mbps"
    rw [sweep_record_events, hr]
    exact ⟨_, by rw [List.map_cons, List.cons_append, List.append_assoc,
      List.singleton_append]⟩
  have b1 := sweep_record_keeps _ _
    (fun s => DataRate.experiment E s 1024 n "200Mbps" "ns3::TcpNewReno" "DsssRate11Mbps") n "200Mbps" b0
  have b2 := sweep_record_keeps _ _
    (fun s => DataRate.experiment E s 1024 n "300Mbps" "ns3::TcpNewReno" "DsssRate11Mbps") n "300Mbps" b1
  have b3 := sweep_record_keeps _ _
    (fun s => DataRate.experiment E s 1024 n "400Mbps" "ns3::TcpNewReno" "DsssRate11Mbps") n "400Mbps" b2
  have b4 := sweep_record_keeps _ _
    (fun s => DataRate.experiment E s 1024 n "500Mbps" "ns3::TcpNewReno" "DsssRate11Mbps") n "500Mbps" b3
  have b5 := sweep_record_keeps _ _
    (fun s => DataRate.experiment E s 1024 n "600Mbps" "ns3::TcpNewReno" "DsssRate11Mbps") n "600Mbps" b4
  have b6 := sweep_record_keeps _ _
    (fun s => DataRate.experiment E s 1024 n "700Mbps" "ns3::TcpNewReno" "DsssRate11Mbps") n "700Mbps" b5
  have b7 := sweep_record_keeps _ _
    (fun s => DataRate.experiment E s 1024 n "800Mbps" "ns3::TcpNewReno" "DsssRate11Mbps") n "800Mbps" b6
  obtain ⟨rest, hr⟩ := b7
  exact ⟨rest, by rw [← List.singleton_append, ← List.append_assoc]; exact hr⟩

/-- The actions of the application-rate sweep start with opening the file,
the two header lines and the first call of the first trial. -/
theorem dataRate_main_first_call {σ : Type} (E : Engine σ) (s : σ) :
    ∃ post, (DataRate.main E s).events =
      [Event.fileOpen "dataRate.dat", Event.file (.header "nWifi" "dataRate" "throughput"),
        Event.console (.header "nWifi" "dataRate" "throughput")] ++
      Event.engine (.configSetDefault "ns3::WifiRemoteStationManager::FragmentationThreshold"
        (.str "999999")) :: post := by
  have key := dataRate_loop_induct E
    (fun m st => (m = 0 ∧ st.events =
        [Event.fileOpen "dataRate.dat", Event.file (.header "nWifi" "dataRate" "throughput"),
          Event.console (.header "nWifi" "dataRate" "throughput")]) ∨
      ∃ post, st.events =
        [Event.fileOpen "dataRate.dat", Event.file (.header "nWifi" "dataRate" "throughput"),
          Event.console (.header "nWifi" "dataRate" "throughput")] ++
        Event.engine (.configSetDefault "ns3::WifiRemoteStationManager::FragmentationThreshold"
          (.str "999999")) :: post)
    (fun m st _ h => by
      obtain ⟨rest, hr⟩ := dataRate_body_extends E (m + 1) st
      right
      rcases h with ⟨_, h⟩ | ⟨post, h⟩
      · exact ⟨rest, by rw [hr, h]⟩
      · exact ⟨post ++ Event.engine (.configSetDefault
          "ns3::WifiRemoteStationManager::FragmentationThreshold" (.str "999999")) :: rest,
          by rw [hr, h]; simp⟩)
    50 0
    (((({ engine := s, events := [] } : SweepState σ).emit (.fileOpen "dataRate.dat")).emit
      (.file (.header "nWifi" "dataRate" "throughput"))).emit
      (.console (.header "nWifi" "dataRate" "throughput")))
    (by omega) (Or.inl ⟨rfl, rfl⟩)
  have hm : (DataRate.main E s).events = (DataRate.loop E 1
      (((({ engine := s, events := [] } : SweepState σ).emit (.fileOpen "dataRate.dat")).emit
      (.file (.header "nWifi" "dataRate" "throughput"))).emit
      (.console (.header "nWifi" "dataRate" "throughput")))).events ++ [Event.fileClose] := rfl
  rcases key with ⟨h0, _⟩ | ⟨post, h⟩
  · omega
  · exact ⟨post ++ [Event.fileClose], by rw [hm, h]; simp⟩

/-- C6.  In each sweep driver the lines written to the data file are, line
for line and in the same order, the lines written to the console, header
included; and whenever a call into the library is issued (in particular
when the next trial starts) the two sinks hold the same lines, with one
data row for every trial whose counter has been read. -/
theorem sinks_in_lock_step {σ : Type} (E : Engine σ) (s : σ) :
    (fileLines (DataRate.main E s).events = consoleLines (DataRate.main E s).events ∧
      ∀ pre c post, (DataRate.main E s).events = pre ++ Event.engine c :: post →
        fileLines pre = consoleLines pre ∧
        (dataRecords (fileLines pre)).length
          = pre.count (Event.engine (.getTotalRx .sinkApp 0))) ∧
    (fileLines (PhyRate.main E s).events = consoleLines (PhyRate.main E s).events ∧
      ∀ pre c post, (PhyRate.main E s).events = pre ++ Event.engine c :: post →
        fileLines pre = consoleLines pre ∧
        (dataRecords (fileLines pre)).length
          = pre.count (Event.engine (.getTotalRx .sinkApp 0))) := by
  obtain ⟨d1, d2, _⟩ := dataRate_main_lockStep E s
  obtain ⟨p1, p2, _⟩ := phyRate_main_lockStep E s
  exact ⟨⟨d2, fun pre c post h => d1 pre c post h⟩, ⟨p2, fun pre c post h => p1 pre c post h⟩⟩

/-- C6 (example): when the first call of the first trial of the
application-rate sweep is issued, both sinks hold the header line only. -/
theorem sinks_in_lock_step_witness :
    ∃ post, (DataRate.main tickEngine 0).events =
        [Event.fileOpen "dataRate.dat", Event.file (.header "nWifi" "dataRate" "throughput"),
          Event.console (.header "nWifi" "dataRate" "throughput")] ++
        Event.engine (.configSetDefault "ns3::WifiRemoteStationManager::FragmentationThreshold"
          (.str "999999")) :: post ∧
      (fileLines [Event.fileOpen "dataRate.dat",
          Event.file (.header "nWifi" "dataRate" "throughput"),
          Event.console (.header "nWifi" "dataRate" "throughput")]
        = consoleLines [Event.fileOpen "dataRate.dat",
          Event.file (.header "nWifi" "dataRate" "throughput"),
          Event.console (.header "nWifi" "dataRate" "throughput")] ∧
      (dataRecords (fileLines [Event.fileOpen "dataRate.dat",
          Event.file (.header "nWifi" "dataRate" "throughput"),
          Event.console (.header "nWifi" "dataRate" "throughput")])).length
        = List.count (Event.engine (.getTotalRx .sinkApp 0)) [Event.fileOpen "dataRate.dat",
          Event.file (.header "nWifi" "dataRate" "throughput"),
          Event.console (.header "nWifi" "dataRate" "throughput")]) := by
  obtain ⟨post, h⟩ := dataRate_main_first_call tickEngine 0
  exact ⟨post, h, (sinks_in_lock_step tickEngine 0).1.2 _ _ post h⟩

/-! ## Order of the last calls of a trial -/

/-- C4 (counterexample).  In the trial of the application-rate sweep with
one station, the calls number 59, 60 and 61 of the 62 calls are
`Simulator::Run`, `Simulator::Destroy` and the read of the sink counter:
the only read comes after the only teardown, not before it. -/
theorem counter_read_not_before_teardown :
    (DataRate.experiment tickEngine 0 1024 1 "100Mbps" "ns3::TcpNewReno"
        "DsssRate11Mbps").trace.length = 62 ∧
    (DataRate.experiment tickEngine 0 1024 1 "100Mbps" "ns3::TcpNewReno"
        "DsssRate11Mbps").trace.indexOf .simulatorRun = 59 ∧
    (DataRate.experiment tickEngine 0 1024 1 "100Mbps" "ns3::TcpNewReno"
        "DsssRate11Mbps").trace.indexOf .simulatorDestroy = 60 ∧
    (DataRate.experiment tickEngine 0 1024 1 "100Mbps" "ns3::TcpNewReno"
        "DsssRate11Mbps").trace.indexOf (.getTotalRx .sinkApp 0) = 61 ∧
    (DataRate.experiment tickEngine 0 1024 1 "100Mbps" "ns3::TcpNewReno"
        "DsssRate11Mbps").trace.count .simulatorDestroy = 1 ∧
    (DataRate.experiment tickEngine 0 1024 1 "100Mbps" "ns3::TcpNewReno"
        "DsssRate11Mbps").trace.count (.getTotalRx .sinkApp 0) = 1 ∧
    ¬ ((DataRate.experiment tickEngine 0 1024 1 "100Mbps" "ns3::TcpNewReno"
        "DsssRate11Mbps").trace.indexOf (.getTotalRx .sinkApp 0)
      < (DataRate.experiment tickEngine 0 1024 1 "100Mbps" "ns3::TcpNewReno"
        "DsssRate11Mbps").trace.indexOf .simulatorDestroy) := by
  decide

theorem dataRate_calls_end (payloadSize nWifi : Nat) (dataRate tcpVariant phyRate : String)
    (simulationTime : ℚ) (pcapTracing : Bool) :
    ReadAfterTeardown
      (DataRate.trialCalls payloadSize nWifi dataRate tcpVariant phyRate simulationTime pcapTracing
        ++ [.getTotalRx .sinkApp 0])
      (simulationTime + 1) := by
  refine ⟨DataRate.physicalLayerCalls payloadSize phyRate ++ (DataRate.topologyCalls nWifi ++
    (DataRate.applicationCalls payloadSize dataRate simulationTime ++
      DataRate.traceCalls pcapTracing)), ?_, ?_⟩
  · simp [DataRate.trialCalls, DataRate.simulatorCalls, List.append_assoc]
  · intro c hc
    simp only [DataRate.physicalLayerCalls, DataRate.topologyCalls, DataRate.applicationCalls,
      DataRate.traceCalls, List.mem_append, List.mem_cons, List.mem_singleton, List.not_mem_nil,
      or_false] at hc
    rcases hc with h | h | h | h
    · repeat (first | (subst h; simp) | (rcases h with h | h))
    · repeat (first | (subst h; simp) | (rcases h with h | h))
    · repeat (first | (subst h; simp) | (rcases h with h | h))
    · cases pcapTracing
      · simp at h
      · simp only [if_true, List.mem_cons, List.mem_singleton, List.not_mem_nil,
          or_false] at h
        repeat (first | (subst h; simp) | (rcases h with h | h))

theorem phyRate_calls_end (payloadSize nWifi : Nat) (dataRate tcpVariant phyRate : String)
    (simulationTime : ℚ) (pcapTracing : Bool) :
    ReadAfterTeardown
      (PhyRate.trialCalls payloadSize nWifi dataRate tcpVariant phyRate simulationTime pcapTracing
        ++ [.getTotalRx .sinkApp 0])
      (simulationTime + 1) := by
  refine ⟨PhyRate.physicalLayerCalls payloadSize phyRate ++ (PhyRate.topologyCalls nWifi ++
    (PhyRate.applicationCalls payloadSize dataRate simulationTime ++
      PhyRate.traceCalls pcapTracing)), ?_, ?_⟩
  · simp [PhyRate.trialCalls, PhyRate.simulatorCalls, List.append_assoc]
  · intro c hc
    simp only [PhyRate.physicalLayerCalls, PhyRate.topologyCalls, PhyRate.applicationCalls,
      PhyRate.traceCalls, List.mem_append, List.mem_cons, List.mem_singleton, List.not_mem_nil,
      or_false] at hc
    rcases hc with h | h | h | h
    · repeat (first | (subst h; simp) | (rcases h with h | h))
    · repeat (first | (subst h; simp) | (rcases h with h | h))
    · repeat (first | (subst h; simp) | (rcases h with h | h))
    · cases pcapTracing
      · simp at h
      · simp only [if_true, List.mem_cons, List.mem_singleton, List.not_mem_nil,
          or_false] at h
        repeat (first | (subst h; simp) | (rcases h with h | h))

theorem tcp80211b_calls_end (payloadSize nWifi : Nat) (dataRate tcpVariant phyRate : String)
    (simulationTime : ℚ) (pcapTracing : Bool) :
    ReadAfterTeardown
      (Tcp80211b.trialCalls payloadSize nWifi dataRate tcpVariant phyRate simulationTime pcapTracing
        ++ [.getTotalRx .sinkApp 0])
      (simulationTime + 1) := by
  refine ⟨Tcp80211b.physicalLayerCalls payloadSize phyRate ++ (Tcp80211b.topologyCalls nWifi ++
    (Tcp80211b.applicationCalls payloadSize dataRate simulationTime ++
      Tcp80211b.traceCalls pcapTracing)), ?_, ?_⟩
  · simp [Tcp80211b.trialCalls, Tcp80211b.simulatorCalls, List.append_assoc]
  · intro c hc
    simp only [Tcp80211b.physicalLayerCalls, Tcp80211b.topologyCalls, Tcp80211b.applicationCalls,
      Tcp80211b.traceCalls, List.mem_append, List.mem_cons, List.mem_singleton, List.not_mem_nil,
      or_false] at hc
    rcases hc with h | h | h | h
    · repeat (first | (subst h; simp) | (rcases h with h | h))
    · repeat (first | (subst h; simp) | (rcases h with h | h))
    · repeat (first | (subst h; simp) | (rcases h with h | h))
    · cases pcapTracing
      · simp at h
      · simp only [if_true, List.mem_cons, List.mem_singleton, List.not_mem_nil,
          or_false] at h
        repeat (first | (subst h; simp) | (rcases h with h | h))

/-- C4 (amended).  In every trial of the three programs the sink counter is
read exactly once, as the last call, after `Simulator::Stop`,
`Simulator::Run` and `Simulator::Destroy` have been issued in this order;
the value read is that of the library state after the teardown. -/
theorem counter_read_after_teardown {σ : Type} (E : Engine σ) (s : σ)
    (payloadSize nWifi : Nat) (dataRate tcpVariant phyRate : String) (L : Tcp80211b.Locals) :
    (ReadAfterTeardown
        (DataRate.experiment E s payloadSize nWifi dataRate tcpVariant phyRate).trace (1 + 1) ∧
      (DataRate.experiment E s payloadSize nWifi dataRate tcpVariant phyRate).throughput
        = ((E.totalRx (exec E s (DataRate.experiment E s payloadSize nWifi dataRate tcpVariant
            phyRate).trace.dropLast) % 2 ^ 32 * 8 % 2 ^ 32 : Nat) : ℚ) / (1 * 1000000)) ∧
    (ReadAfterTeardown
        (PhyRate.experiment E s payloadSize nWifi dataRate tcpVariant phyRate).trace (1 + 1) ∧
      (PhyRate.experiment E s payloadSize nWifi dataRate tcpVariant phyRate).throughput
        = ((E.totalRx (exec E s (PhyRate.experiment E s payloadSize nWifi dataRate tcpVariant
            phyRate).trace.dropLast) % 2 ^ 32 * 8 % 2 ^ 32 : Nat) : ℚ) / (1 * 1000000)) ∧
    (ReadAfterTeardown (Tcp80211b.trial E s L).trace (L.simulationTime + 1) ∧
      (Tcp80211b.trial E s L).throughput
        = ((E.totalRx (exec E s (Tcp80211b.trial E s L).trace.dropLast) % 2 ^ 32 * 8
            % 2 ^ 32 : Nat) : ℚ) / (L.simulationTime * 1000000)) := by
  refine ⟨⟨dataRate_calls_end _ _ _ _ _ _ _, ?_⟩, ⟨phyRate_calls_end _ _ _ _ _ _ _, ?_⟩,
    ⟨tcp80211b_calls_end _ _ _ _ _ _ _, ?_⟩⟩
  · simp only [DataRate.experiment, List.dropLast_concat]
  · simp only [PhyRate.experiment, List.dropLast_concat]
  · simp only [Tcp80211b.trial, List.dropLast_concat]

/-! ## The physical rate is not validated -/

theorem plain_parse_phyRate (r : String) :
    Tcp80211b.parse plainCommandLine [("phyRate", r)] Tcp80211b.defaults
      = .ok { Tcp80211b.defaults with phyRate := r } := by
  simp [Tcp80211b.parse, Tcp80211b.handleArgument, Tcp80211b.items, plainCommandLine,
    Tcp80211b.defaults]

/-- C5 (counterexample).  Run with `--phyRate=OfdmRate54Mbps`, which is
none of the four supported rates, `main` of `tcp-80211b.cc` does not stop
with an error: it issues all the calls of a trial with that rate, among
them the creation of the 50 station nodes and `Simulator::Run`, and passes
the unsupported rate to the library as data mode and control mode. -/
theorem unsupported_phyRate_reaches_engine :
    "OfdmRate54Mbps" ∉ ["DsssRate1Mbps", "DsssRate2Mbps", "DsssRate5_5Mbps", "DsssRate11Mbps"] ∧
    (Tcp80211b.main plainCommandLine tickEngine 0 [("phyRate", "OfdmRate54Mbps")]).map
        (fun o => o.result.trace)
      = .ok (Tcp80211b.trialCalls 1024 50 "100Mbps" "ns3::TcpNewReno" "OfdmRate54Mbps" 1 false
          ++ [.getTotalRx .sinkApp 0]) ∧
    EngineCall.wifiSetRemoteStationManager "ns3::ConstantRateWifiManager"
        [("DataMode", .str "OfdmRate54Mbps"), ("ControlMode", .str "OfdmRate54Mbps")]
      ∈ Tcp80211b.trialCalls 1024 50 "100Mbps" "ns3::TcpNewReno" "OfdmRate54Mbps" 1 false ∧
    EngineCall.nodesCreate .wifiStaNodes 50
      ∈ Tcp80211b.trialCalls 1024 50 "100Mbps" "ns3::TcpNewReno" "OfdmRate54Mbps" 1 false ∧
    EngineCall.simulatorRun
      ∈ Tcp80211b.trialCalls 1024 50 "100Mbps" "ns3::TcpNewReno" "OfdmRate54Mbps" 1 false := by
  refine ⟨by decide, ?_, ?_, ?_, ?_⟩
  · simp only [Tcp80211b.main, plain_parse_phyRate, Except.map]
    simp only [Tcp80211b.trial, Tcp80211b.defaults]
  · simp [Tcp80211b.trialCalls, Tcp80211b.physicalLayerCalls]
  · simp [Tcp80211b.trialCalls, Tcp80211b.topologyCalls]
  · simp [Tcp80211b.trialCalls, Tcp80211b.simulatorCalls]

/-- C5 (amended).  The trial does not examine the physical rate: for every
rate string, supported or not, its first call goes to the library before
the rate is used, the rate is handed unchanged to the library as data mode
and control mode of the constant-rate manager, the station nodes are
created and the simulation is run; and run with each of the four supported
rates `main` of `tcp-80211b.cc` ends without error. -/
theorem phyRate_handed_to_engine_unchecked {σ : Type} (E : Engine σ) (s : σ)
    (L : Tcp80211b.Locals) :
    ((Tcp80211b.trial E s L).trace.head? = some (.configSetDefault
        "ns3::WifiRemoteStationManager::FragmentationThreshold" (.str "999999")) ∧
      EngineCall.wifiSetRemoteStationManager "ns3::ConstantRateWifiManager"
          [("DataMode", .str L.phyRate), ("ControlMode", .str L.phyRate)]
        ∈ (Tcp80211b.trial E s L).trace ∧
      EngineCall.nodesCreate .wifiStaNodes L.nWifi ∈ (Tcp80211b.trial E s L).trace ∧
      EngineCall.simulatorRun ∈ (Tcp80211b.trial E s L).trace) ∧
    (Tcp80211b.main plainCommandLine E s [("phyRate", "DsssRate1Mbps")]).map
        (fun o => o.locals.phyRate) = .ok "DsssRate1Mbps" ∧
    (Tcp80211b.main plainCommandLine E s [("phyRate", "DsssRate2Mbps")]).map
        (fun o => o.locals.phyRate) = .ok "DsssRate2Mbps" ∧
    (Tcp80211b.main plainCommandLine E s [("phyRate", "DsssRate5_5Mbps")]).map
        (fun o => o.locals.phyRate) = .ok "DsssRate5_5Mbps" ∧
    (Tcp80211b.main plainCommandLine E s [("phyRate", "DsssRate11Mbps")]).map
        (fun o => o.locals.phyRate) = .ok "DsssRate11Mbps" := by
  refine ⟨⟨?_, ?_, ?_, ?_⟩, ?_, ?_, ?_, ?_⟩
  · simp [Tcp80211b.trial, Tcp80211b.trialCalls, Tcp80211b.physicalLayerCalls]
  · simp [Tcp80211b.trial, Tcp80211b.trialCalls, Tcp80211b.physicalLayerCalls]
  · simp [Tcp80211b.trial, Tcp80211b.trialCalls, Tcp80211b.topologyCalls]
  · simp [Tcp80211b.trial, Tcp80211b.trialCalls, Tcp80211b.simulatorCalls]
  all_goals simp only [Tcp80211b.main, plain_parse_phyRate, Except.map]

/-! ## Timing and topology of a trial -/

/-- The scenario that the calls of the trial of `tcp-80211b.cc` describe. -/
theorem tcp80211b_scenario {σ : Type} (E : Engine σ) (s : σ) (L : Tcp80211b.Locals) :
    scenarioOf (Tcp80211b.trial E s L).trace =
      { wifiStaNodes := L.nWifi
        wifiApNode := 1
        packetSinkHelper :=
          some ("ns3::TcpSocketFactory", [("Local", .address (.inetSocket .any 50000))])
        sinkApp := [{ group := .wifiApNode, index := 0, factory := "ns3::TcpSocketFactory",
                      attrs := [("Local", .address (.inetSocket .any 50000))],
                      start := some 0, stop := some (L.simulationTime + 1) }]
        onoff := some ("ns3::TcpSocketFactory",
          [("OnTime", .str "ns3::ConstantRandomVariable[Constant=1]"),
           ("OffTime", .str "ns3::ConstantRandomVariable[Constant=0]"),
           ("PacketSize", .uint L.payloadSize),
           ("DataRate", .dataRate L.dataRate),
           ("Remote", .address (.inetSocket (.apInterface 0) 50000))])
        apps := (List.range L.nWifi).map fun i =>
          { group := .wifiStaNodes, index := i, factory := "ns3::TcpSocketFactory",
            attrs := [("OnTime", .str "ns3::ConstantRandomVariable[Constant=1]"),
              ("OffTime", .str "ns3::ConstantRandomVariable[Constant=0]"),
              ("PacketSize", .uint L.payloadSize),
              ("DataRate", .dataRate L.dataRate),
              ("Remote", .address (.inetSocket (.apInterface 0) 50000))],
            start := some 1, stop := some (L.simulationTime + 1) }
        stopTime := some (L.simulationTime + 1) } := by
  cases hp : L.pcapTracing <;>
    simp [scenarioOf, Tcp80211b.trial, Tcp80211b.trialCalls, Tcp80211b.physicalLayerCalls,
      Tcp80211b.topologyCalls, Tcp80211b.applicationCalls, Tcp80211b.traceCalls,
      Tcp80211b.simulatorCalls, Scenario.apply, Scenario.empty, Scenario.size, setAttr, hp]

/-- The scenario that the calls of `experiment` of `codes/dataRate.cc` describe. -/
theorem dataRate_scenario {σ : Type} (E : Engine σ) (s : σ) (payloadSize nWifi : Nat)
    (dataRate tcpVariant phyRate : String) :
    scenarioOf (DataRate.experiment E s payloadSize nWifi dataRate tcpVariant phyRate).trace =
      { wifiStaNodes := nWifi
        wifiApNode := 1
        packetSinkHelper :=
          some ("ns3::TcpSocketFactory", [("Local", .address (.inetSocket .any 50000))])
        sinkApp := [{ group := .wifiApNode, index := 0, factory := "ns3::TcpSocketFactory",
                      attrs := [("Local", .address (.inetSocket .any 50000))],
                      start := some 0, stop := some (1 + 1) }]
        onoff := some ("ns3::TcpSocketFactory",
          [("OnTime", .str "ns3::ConstantRandomVariable[Constant=1]"),
           ("OffTime", .str "ns3::ConstantRandomVariable[Constant=0]"),
           ("PacketSize", .uint payloadSize),
           ("DataRate", .dataRate dataRate),
           ("Remote", .address (.inetSocket (.apInterface 0) 50000))])
        apps := (List.range nWifi).map fun i =>
          { group := .wifiStaNodes, index := i, factory := "ns3::TcpSocketFactory",
            attrs := [("OnTime", .str "ns3::ConstantRandomVariable[Constant=1]"),
              ("OffTime", .str "ns3::ConstantRandomVariable[Constant=0]"),
              ("PacketSize", .uint payloadSize),
              ("DataRate", .dataRate dataRate),
              ("Remote", .address (.inetSocket (.apInterface 0) 50000))],
            start := some 1, stop := some (1 + 1) }
        stopTime := some (1 + 1) } := by
  simp [scenarioOf, DataRate.experiment, DataRate.trialCalls, DataRate.physicalLayerCalls,
    DataRate.topologyCalls, DataRate.applicationCalls, DataRate.traceCalls,
    DataRate.simulatorCalls, Scenario.apply, Scenario.empty, Scenario.size, setAttr]

/-- The scenario that the calls of `experiment` of `codes/phyRate.cc` describe. -/
theorem phyRate_scenario {σ : Type} (E : Engine σ) (s : σ) (payloadSize nWifi : Nat)
    (dataRate tcpVariant phyRate : String) :
    scenarioOf (PhyRate.experiment E s payloadSize nWifi dataRate tcpVariant phyRate).trace =
      { wifiStaNodes := nWifi
        wifiApNode := 1
        packetSinkHelper :=
          some ("ns3::TcpSocketFactory", [("Local", .address (.inetSocket .any 50000))])
        sinkApp := [{ group := .wifiApNode, index := 0, factory := "ns3::TcpSocketFactory",
                      attrs := [("Local", .address (.inetSocket .any 50000))],
                      start := some 0, stop := some (1 + 1) }]
        onoff := some ("ns3::TcpSocketFactory",
          [("OnTime", .str "ns3::ConstantRandomVariable[Constant=1]"),
           ("OffTime", .str "ns3::ConstantRandomVariable[Constant=0]"),
           ("PacketSize", .uint payloadSize),
           ("DataRate", .dataRate dataRate),
           ("Remote", .address (.inetSocket (.apInterface 0) 50000))])
        apps := (List.range nWifi).map fun i =>
          { group := .wifiStaNodes, index := i, factory := "ns3::TcpSocketFactory",
            attrs := [("OnTime", .str "ns3::ConstantRandomVariable[Constant=1]"),
              ("OffTime", .str "ns3::ConstantRandomVariable[Constant=0]"),
              ("PacketSize", .uint payloadSize),
              ("DataRate", .dataRate dataRate),
              ("Remote", .address (.inetSocket (.apInterface 0) 50000))],
            start := some 1, stop := some (1 + 1) }
        stopTime := some (1 + 1) } := by
  simp [scenarioOf, PhyRate.experiment, PhyRate.trialCalls, PhyRate.physicalLayerCalls,
    PhyRate.topologyCalls, PhyRate.applicationCalls, PhyRate.traceCalls,
    PhyRate.simulatorCalls, Scenario.apply, Scenario.empty, Scenario.size, setAttr]

/-- C7.  For every measurement window `simulationTime`, the calls of the
trial of `tcp-80211b.cc` that give a time are, in order: start of the sink
at 0, stop of the sink at `simulationTime + 1`, start of the senders at 1,
stop of the senders at `simulationTime + 1`, stop of the simulator at
`simulationTime + 1`.  In the scenario they describe the simulator, the
sink and every sender stop at `simulationTime + 1`, the sink starts at 0
and every sender starts at 1, so that a sender is active for
`simulationTime` seconds. -/
theorem trial_timing {σ : Type} (E : Engine σ) (s : σ) (L : Tcp80211b.Locals) :
    (Tcp80211b.trial E s L).trace.filter EngineCall.isTiming
      = [.appStart .sinkApp 0, .appStop .sinkApp (L.simulationTime + 1),
         .appStart .apps 1, .appStop .apps (L.simulationTime + 1),
         .simulatorStop (L.simulationTime + 1)] ∧
    (scenarioOf (Tcp80211b.trial E s L).trace).stopTime = some (L.simulationTime + 1) ∧
    (scenarioOf (Tcp80211b.trial E s L).trace).sinkApp.map (fun a => (a.start, a.stop))
      = [(some 0, some (L.simulationTime + 1))] ∧
    (scenarioOf (Tcp80211b.trial E s L).trace).apps.map (fun a => (a.start, a.stop))
      = List.replicate L.nWifi (some 1, some (L.simulationTime + 1)) ∧
    (L.simulationTime + 1) - 1 = L.simulationTime := by
  refine ⟨?_, ?_, ?_, ?_, by ring⟩
  · cases hp : L.pcapTracing <;>
      simp [Tcp80211b.trial, Tcp80211b.trialCalls, Tcp80211b.physicalLayerCalls,
        Tcp80211b.topologyCalls, Tcp80211b.applicationCalls, Tcp80211b.traceCalls,
        Tcp80211b.simulatorCalls, List.filter, EngineCall.isTiming, hp]
  · rw [tcp80211b_scenario]
  · rw [tcp80211b_scenario]
    rfl
  · rw [tcp80211b_scenario]
    simp only [List.map_map]
    exact List.ext_getElem (by simp) (fun i h1 h2 => by simp)

/-- C9.  For every station count, the scenario that a trial of any of the
three programs describes has exactly that many station nodes and exactly
one access-point node, exactly one sink application, installed on node 0
of the access-point container and listening on port 50000 of any local
address, and exactly one sending application per station node, in order of
the nodes, each with remote address the access point's address number 0
and port 50000. -/
theorem topology_invariant {σ : Type} (E : Engine σ) (s : σ) (L : Tcp80211b.Locals)
    (payloadSize nWifi : Nat) (dataRate tcpVariant phyRate : String) :
    ((scenarioOf (Tcp80211b.trial E s L).trace).wifiStaNodes = L.nWifi ∧
      (scenarioOf (Tcp80211b.trial E s L).trace).wifiApNode = 1 ∧
      (scenarioOf (Tcp80211b.trial E s L).trace).sinkApp.map
          (fun a => (a.group, a.index, getAttr a.attrs "Local"))
        = [(.wifiApNode, 0, some (.address (.inetSocket .any 50000)))] ∧
      (scenarioOf (Tcp80211b.trial E s L).trace).apps.length = L.nWifi ∧
      (scenarioOf (Tcp80211b.trial E s L).trace).apps.map
          (fun a => (a.group, a.index, getAttr a.attrs "Remote"))
        = (List.range L.nWifi).map fun i =>
            (.wifiStaNodes, i, some (.address (.inetSocket (.apInterface 0) 50000)))) ∧
    ((scenarioOf (DataRate.experiment E s payloadSize nWifi dataRate tcpVariant
          phyRate).trace).wifiStaNodes = nWifi ∧
      (scenarioOf (DataRate.experiment E s payloadSize nWifi dataRate tcpVariant
          phyRate).trace).wifiApNode = 1 ∧
      (scenarioOf (DataRate.experiment E s payloadSize nWifi dataRate tcpVariant
          phyRate).trace).sinkApp.map (fun a => (a.group, a.index, getAttr a.attrs "Local"))
        = [(.wifiApNode, 0, some (.address (.inetSocket .any 50000)))] ∧
      (scenarioOf (DataRate.experiment E s payloadSize nWifi dataRate tcpVariant
          phyRate).trace).apps.length = nWifi ∧
      (scenarioOf (DataRate.experiment E s payloadSize nWifi dataRate tcpVariant
          phyRate).trace).apps.map (fun a => (a.group, a.index, getAttr a.attrs "Remote"))
        = (List.range nWifi).map fun i =>
            (.wifiStaNodes, i, some (.address (.inetSocket (.apInterface 0) 50000)))) ∧
    ((scenarioOf (PhyRate.experiment E s payloadSize nWifi dataRate tcpVariant
          phyRate).trace).wifiStaNodes = nWifi ∧
      (scenarioOf (PhyRate.experiment E s payloadSize nWifi dataRate tcpVariant
          phyRate).trace).wifiApNode = 1 ∧
      (scenarioOf (PhyRate.experiment E s payloadSize nWifi dataRate tcpVariant
          phyRate).trace).sinkApp.map (fun a => (a.group, a.index, getAttr a.attrs "Local"))
        = [(.wifiApNode, 0, some (.address (.inetSocket .any 50000)))] ∧
      (scenarioOf (PhyRate.experiment E s payloadSize nWifi dataRate tcpVariant
          phyRate).trace).apps.length = nWifi ∧
      (scenarioOf (PhyRate.experiment E s payloadSize nWifi dataRate tcpVariant
          phyRate).trace).apps.map (fun a => (a.group, a.index, getAttr a.attrs "Remote"))
        = (List.range nWifi).map fun i =>
            (.wifiStaNodes, i, some (.address (.inetSocket (.apInterface 0) 50000)))) := by
  rw [tcp80211b_scenario, dataRate_scenario, phyRate_scenario]
  simp [getAttr]

/-! ## The command line of `tcp-80211b.cc` -/

/-- An argument changes no local other than the one registered under its
name. -/
theorem handleArgument_keeps (P : Tcp80211b.CommandLine) (name value : String)
    (L L1 : Tcp80211b.Locals) (h : Tcp80211b.handleArgument P name value L = .ok L1) :
    (name ≠ "nWifi" → L1.nWifi = L.nWifi) ∧
    (name ≠ "payloadSize" → L1.payloadSize = L.payloadSize) ∧
    (name ≠ "dataRate" → L1.dataRate = L.dataRate) ∧
    (name ≠ "tcpVariant" → L1.tcpVariant = L.tcpVariant) ∧
    (name ≠ "phyRate" → L1.phyRate = L.phyRate) ∧
    (name ≠ "simulationTime" → L1.simulationTime = L.simulationTime) ∧
    (name ≠ "pcap" → L1.pcapTracing = L.pcapTracing) := by
  by_cases h0 : name = "nWifi"
  · subst h0
    simp only [Tcp80211b.handleArgument, Tcp80211b.items, List.find?] at h
    cases hv : P.uint32 value <;> simp [hv] at h
    subst h
    simp
  by_cases h1 : name = "payloadSize"
  · subst h1
    simp only [Tcp80211b.handleArgument, Tcp80211b.items, List.find?] at h
    cases hv : P.uint32 value <;> simp [hv] at h
    subst h
    simp
  by_cases h2 : name = "dataRate"
  · subst h2
    simp only [Tcp80211b.handleArgument, Tcp80211b.items, List.find?] at h
    cases hv : P.string value <;> simp [hv] at h
    subst h
    simp
  by_cases h3 : name = "tcpVariant"
  · subst h3
    simp only [Tcp80211b.handleArgument, Tcp80211b.items, List.find?] at h
    cases hv : P.string value <;> simp [hv] at h
    subst h
    simp
  by_cases h4 : name = "phyRate"
  · subst h4
    simp only [Tcp80211b.handleArgument, Tcp80211b.items, List.find?] at h
    cases hv : P.string value <;> simp [hv] at h
    subst h
    simp
  by_cases h5 : name = "simulationTime"
  · subst h5
    simp only [Tcp80211b.handleArgument, Tcp80211b.items, List.find?] at h
    cases hv : P.double value <;> simp [hv] at h
    subst h
    simp
  by_cases h6 : name = "pcap"
  · subst h6
    simp only [Tcp80211b.handleArgument, Tcp80211b.items, List.find?] at h
    cases hv : P.bool L.pcapTracing value <;> simp [hv] at h
    subst h
    simp
  have e0 : ("nWifi" == name) = false := beq_eq_false_iff_ne.mpr (Ne.symm h0)
  have e1 : ("payloadSize" == name) = false := beq_eq_false_iff_ne.mpr (Ne.symm h1)
  have e2 : ("dataRate" == name) = false := beq_eq_false_iff_ne.mpr (Ne.symm h2)
  have e3 : ("tcpVariant" == name) = false := beq_eq_false_iff_ne.mpr (Ne.symm h3)
  have e4 : ("phyRate" == name) = false := beq_eq_false_iff_ne.mpr (Ne.symm h4)
  have e5 : ("simulationTime" == name) = false := beq_eq_false_iff_ne.mpr (Ne.symm h5)
  have e6 : ("pcap" == name) = false := beq_eq_false_iff_ne.mpr (Ne.symm h6)
  have hnone : (Tcp80211b.items.find? fun it => it.name == name) = none := by
    simp only [Tcp80211b.items, List.find?, e0, e1, e2, e3, e4, e5, e6]
  simp only [Tcp80211b.handleArgument, hnone] at h
  split at h
  · cases h
    simp
  · cases h

/-- A local whose option name is not among the arguments keeps its value
through `cmd.Parse`. -/
theorem parse_keeps (P : Tcp80211b.CommandLine) (args : List (String × String)) :
    ∀ L0 L : Tcp80211b.Locals, Tcp80211b.parse P args L0 = .ok L →
    ((∀ a ∈ args, a.1 ≠ "nWifi") → L.nWifi = L0.nWifi) ∧
    ((∀ a ∈ args, a.1 ≠ "payloadSize") → L.payloadSize = L0.payloadSize) ∧
    ((∀ a ∈ args, a.1 ≠ "dataRate") → L.dataRate = L0.dataRate) ∧
    ((∀ a ∈ args, a.1 ≠ "tcpVariant") → L.tcpVariant = L0.tcpVariant) ∧
    ((∀ a ∈ args, a.1 ≠ "phyRate") → L.phyRate = L0.phyRate) ∧
    ((∀ a ∈ args, a.1 ≠ "simulationTime") → L.simulationTime = L0.simulationTime) ∧
    ((∀ a ∈ args, a.1 ≠ "pcap") → L.pcapTracing = L0.pcapTracing) := by
  induction args with
  | nil =>
    intro L0 L h
    simp only [Tcp80211b.parse, Except.ok.injEq] at h
    subst h
    simp
  | cons a rest ih =>
    intro L0 L h
    obtain ⟨name, value⟩ := a
    simp only [Tcp80211b.parse] at h
    cases hh : Tcp80211b.handleArgument P name value L0 with
    | error e => simp [hh] at h
    | ok L1 =>
      simp only [hh] at h
      obtain ⟨k0, k1, k2, k3, k4, k5, k6⟩ := handleArgument_keeps P name value L0 L1 hh
      obtain ⟨r0, r1, r2, r3, r4, r5, r6⟩ := ih L1 L h
      refine ⟨?_, ?_, ?_, ?_, ?_, ?_, ?_⟩
      · intro hn
        rw [r0 (fun a ha => hn a (List.mem_cons_of_mem _ ha)),
          k0 (hn (name, value) (List.mem_cons_self _ _))]
      · intro hn
        rw [r1 (fun a ha => hn a (List.mem_cons_of_mem _ ha)),
          k1 (hn (name, value) (List.mem_cons_self _ _))]
      · intro hn
        rw [r2 (fun a ha => hn a (List.mem_cons_of_mem _ ha)),
          k2 (hn (name, value) (List.mem_cons_self _ _))]
      · intro hn
        rw [r3 (fun a ha => hn a (List.mem_cons_of_mem _ ha)),
          k3 (hn (name, value) (List.mem_cons_self _ _))]
      · intro hn
        rw [r4 (fun a ha => hn a (List.mem_cons_of_mem _ ha)),
          k4 (hn (name, value) (List.mem_cons_self _ _))]
      · intro hn
        rw [r5 (fun a ha => hn a (List.mem_cons_of_mem _ ha)),
          k5 (hn (name, value) (List.mem_cons_self _ _))]
      · intro hn
        rw [r6 (fun a ha => hn a (List.mem_cons_of_mem _ ha)),
          k6 (hn (name, value) (List.mem_cons_self _ _))]

theorem main_ok_parse {σ : Type} (P : Tcp80211b.CommandLine) (E : Engine σ) (s : σ)
    (args : List (String × String)) (o : Tcp80211b.MainOutcome σ)
    (h : Tcp80211b.main P E s args = .ok o) :
    Tcp80211b.parse P args Tcp80211b.defaults = .ok o.locals ∧
      o.result = Tcp80211b.trial E (exec E s (Tcp80211b.globalCalls args)) o.locals := by
  simp only [Tcp80211b.main] at h
  cases hp : Tcp80211b.parse P args Tcp80211b.defaults with
  | error e => simp [hp] at h
  | ok L =>
    simp only [hp, Except.ok.injEq] at h
    subst h
    exact ⟨rfl, rfl⟩

/-- C8.  Run without arguments, `main` of `tcp-80211b.cc` runs the trial
with station count 50, payload size 1024, application data rate 100Mbps,
variant ns3::TcpNewReno, physical rate DsssRate11Mbps, measurement window 1
and packet capture off; and whatever the arguments are, when `main` gets
past `cmd.Parse` each local whose option name is not among the arguments
has its initial value in the trial that is run. -/
theorem single_trial_defaults {σ : Type} (P : Tcp80211b.CommandLine) (E : Engine σ) (s : σ) :
    ((Tcp80211b.main P E s []).map (fun o => o.locals)
        = .ok { nWifi := 50, payloadSize := 1024, dataRate := "100Mbps",
                tcpVariant := "ns3::TcpNewReno", phyRate := "DsssRate11Mbps",
                simulationTime := 1, pcapTracing := false } ∧
      (Tcp80211b.main P E s []).map (fun o => o.result)
        = .ok (Tcp80211b.trial E s
            { nWifi := 50, payloadSize := 1024, dataRate := "100Mbps",
              tcpVariant := "ns3::TcpNewReno", phyRate := "DsssRate11Mbps",
              simulationTime := 1, pcapTracing := false })) ∧
    ∀ (args : List (String × String)) (o : Tcp80211b.MainOutcome σ),
      Tcp80211b.main P E s args = .ok o →
      o.result = Tcp80211b.trial E (exec E s (Tcp80211b.globalCalls args)) o.locals ∧
      ((∀ a ∈ args, a.1 ≠ "nWifi") → o.locals.nWifi = 50) ∧
      ((∀ a ∈ args, a.1 ≠ "payloadSize") → o.locals.payloadSize = 1024) ∧
      ((∀ a ∈ args, a.1 ≠ "dataRate") → o.locals.dataRate = "100Mbps") ∧
      ((∀ a ∈ args, a.1 ≠ "tcpVariant") → o.locals.tcpVariant = "ns3::TcpNewReno") ∧
      ((∀ a ∈ args, a.1 ≠ "phyRate") → o.locals.phyRate = "DsssRate11Mbps") ∧
      ((∀ a ∈ args, a.1 ≠ "simulationTime") → o.locals.simulationTime = 1) ∧
      ((∀ a ∈ args, a.1 ≠ "pcap") → o.locals.pcapTracing = false) := by
  refine ⟨⟨rfl, rfl⟩, ?_⟩
  intro args o h
  obtain ⟨hp, hr⟩ := main_ok_parse P E s args o h
  exact ⟨hr, parse_keeps P args _ _ hp⟩

theorem plain_parse_nWifi :
    Tcp80211b.parse plainCommandLine [("nWifi", "3")] Tcp80211b.defaults
      = .ok { Tcp80211b.defaults with nWifi := 3 } := by
  have h1 : readNat "3" = some 3 := by decide
  simp [Tcp80211b.parse, Tcp80211b.handleArgument, Tcp80211b.items, plainCommandLine,
    Tcp80211b.defaults, h1]

/-- C8 (example): run with `--nWifi=3` only, the trial has 3 stations and
the initial values of the six other locals. -/
theorem single_trial_defaults_witness :
    ∃ o, Tcp80211b.main plainCommandLine tickEngine 0 [("nWifi", "3")] = .ok o ∧
      o.locals.nWifi = 3 ∧
      o.result = Tcp80211b.trial tickEngine
        (exec tickEngine 0 (Tcp80211b.globalCalls [("nWifi", "3")])) o.locals ∧
      o.locals.payloadSize = 1024 ∧ o.locals.dataRate = "100Mbps" ∧
      o.locals.tcpVariant = "ns3::TcpNewReno" ∧ o.locals.phyRate = "DsssRate11Mbps" ∧
      o.locals.simulationTime = 1 ∧ o.locals.pcapTracing = false := by
  have hm : Tcp80211b.main plainCommandLine tickEngine 0 [("nWifi", "3")]
      = .ok { locals := { Tcp80211b.defaults with nWifi := 3 },
              globals := Tcp80211b.globalCalls [("nWifi", "3")],
              result := Tcp80211b.trial tickEngine
                (exec tickEngine 0 (Tcp80211b.globalCalls [("nWifi", "3")]))
                { Tcp80211b.defaults with nWifi := 3 },
              console := [(Tcp80211b.trial tickEngine
                (exec tickEngine 0 (Tcp80211b.globalCalls [("nWifi", "3")]))
                { Tcp80211b.defaults with nWifi := 3 }).throughput] } := by
    simp only [Tcp80211b.main, plain_parse_nWifi]
  obtain ⟨hr, -, k1, k2, k3, k4, k5, k6⟩ :=
    (single_trial_defaults plainCommandLine tickEngine 0).2 _ _ hm
  exact ⟨_, hm, rfl, hr, k1 (by decide), k2 (by decide), k3 (by decide), k4 (by decide),
    k5 (by decide), k6 (by decide)⟩

/-! ## The congestion-control variant -/

/-- C10.  The option `tcpVariant` is registered on the command line of
`tcp-80211b.cc`, and in each of the three programs two trials that differ
only in the value of `tcpVariant` issue the same calls, leave the same
library state and compute the same throughput. -/
theorem tcpVariant_inert {σ : Type} (E : Engine σ) (s : σ) (payloadSize nWifi : Nat)
    (dataRate phyRate : String) (L : Tcp80211b.Locals) (v1 v2 : String) :
    "tcpVariant" ∈ Tcp80211b.items.map (fun it => it.name) ∧
    DataRate.experiment E s payloadSize nWifi dataRate v1 phyRate
      = DataRate.experiment E s payloadSize nWifi dataRate v2 phyRate ∧
    PhyRate.experiment E s payloadSize nWifi dataRate v1 phyRate
      = PhyRate.experiment E s payloadSize nWifi dataRate v2 phyRate ∧
    Tcp80211b.trial E s { L with tcpVariant := v1 }
      = Tcp80211b.trial E s { L with tcpVariant := v2 } := by
  refine ⟨by simp [Tcp80211b.items], rfl, rfl, rfl⟩

/-! ## The packet-capture option -/

/-- C11 (failing input).  The options that `main` of `tcp-80211b.cc`
registers are nWifi, payloadSize, dataRate, tcpVariant, phyRate,
simulationTime and pcap: the toggle `pcapTracing` is bound to the name
`pcap`, and `pcapTracing` is not a registered name.  Whatever the readers
of the command line are, the argument `--pcapTracing=v` either ends the
program or leaves every local at its initial value; run with
`--pcapTracing=true` the program does not reach the trial, while run with
`--pcap=true` it issues the three packet-capture calls. -/
theorem pcapTracing_option_not_registered (P : Tcp80211b.CommandLine) (v : String) :
    Tcp80211b.items.map (fun it => it.name)
      = ["nWifi", "payloadSize", "dataRate", "tcpVariant", "phyRate", "simulationTime",
         "pcap"] ∧
    "pcapTracing" ∉ Tcp80211b.items.map (fun it => it.name) ∧
    (Tcp80211b.parse P [("pcapTracing", v)] Tcp80211b.defaults = .ok Tcp80211b.defaults ∨
      Tcp80211b.parse P [("pcapTracing", v)] Tcp80211b.defaults
        = .error (.invalidArgument "pcapTracing" v)) ∧
    (Tcp80211b.main plainCommandLine tickEngine 0 [("pcapTracing", "true")]).map
        (fun o => o.result.trace)
      = .error (.invalidArgument "pcapTracing" "true") ∧
    (Tcp80211b.main plainCommandLine tickEngine 0 [("pcap", "true")]).map
        (fun o => (o.locals.pcapTracing, o.result.trace.filter fun c =>
          c == .phySetPcapDataLinkType "DLT_IEEE802_11_RADIO" ||
          c == .phyEnablePcap "AccessPoint" .apDevice ||
          c == .phyEnablePcap "Station" .staDevices))
      = .ok (true, [.phySetPcapDataLinkType "DLT_IEEE802_11_RADIO",
          .phyEnablePcap "AccessPoint" .apDevice, .phyEnablePcap "Station" .staDevices]) := by
  have hfind : (Tcp80211b.items.find? fun it => it.name == "pcapTracing") = none := by
    simp [Tcp80211b.items, List.find?]
  have hparse : ∀ (Q : Tcp80211b.CommandLine) (w : String),
      Tcp80211b.parse Q [("pcapTracing", w)] Tcp80211b.defaults
        = if Q.global "pcapTracing" w then .ok Tcp80211b.defaults
          else .error (.invalidArgument "pcapTracing" w) := by
    intro Q w
    cases hg : Q.global "pcapTracing" w <;>
      simp [Tcp80211b.parse, Tcp80211b.handleArgument, hfind, hg]
  refine ⟨by simp [Tcp80211b.items], by simp [Tcp80211b.items], ?_, ?_, ?_⟩
  · rw [hparse]
    cases P.global "pcapTracing" v <;> simp
  · simp only [Tcp80211b.main, hparse]
    simp [plainCommandLine, Except.map]
  · have hp : Tcp80211b.parse plainCommandLine [("pcap", "true")] Tcp80211b.defaults
        = .ok { Tcp80211b.defaults with pcapTracing := true } := by
      simp [Tcp80211b.parse, Tcp80211b.handleArgument, Tcp80211b.items, plainCommandLine,
        Tcp80211b.defaults]
    simp only [Tcp80211b.main, hp, Except.map]
    simp only [Tcp80211b.trial, Tcp80211b.defaults]
    have hf : (Tcp80211b.trialCalls 1024 50 "100Mbps" "ns3::TcpNewReno" "DsssRate11Mbps" 1 true
        ++ [EngineCall.getTotalRx .sinkApp 0]).filter (fun c =>
          c == .phySetPcapDataLinkType "DLT_IEEE802_11_RADIO" ||
          c == .phyEnablePcap "AccessPoint" .apDevice ||
          c == .phyEnablePcap "Station" .staDevices)
        = [.phySetPcapDataLinkType "DLT_IEEE802_11_RADIO",
          .phyEnablePcap "AccessPoint" .apDevice, .phyEnablePcap "Station" .staDevices] := by
      decide
    rw [hf]

/-! ## The bit count in 32 bits -/

/-- The value of `totalPacketsThrough * 8` in `uint32_t` for a counter that
reads `b < 2 ^ 32`: it is `8 * b` modulo `2 ^ 32`, it is `8 * b` exactly
when `b < 2 ^ 29`, and it is below `2 ^ 32`. -/
theorem bit_count_wrap (b : Nat) (h : b < 2 ^ 32) :
    b % 2 ^ 32 * 8 % 2 ^ 32 = 8 * b % 2 ^ 32 ∧
    (8 * b % 2 ^ 32 = 8 * b ↔ b < 2 ^ 29) ∧
    8 * b % 2 ^ 32 < 4294967296 := by
  refine ⟨by omega, ⟨fun h1 => by omega, fun h1 => by omega⟩, by omega⟩

/-- The throughput computed from a bit count `w` with window 1: it is
`8 * b / 1000000` exactly when `w = 8 * b`, and it is below
`4294.967296` when `w < 2 ^ 32`. -/
theorem throughput_of_bit_count (w b : Nat) :
    (((w : Nat) : ℚ) / (1 * 1000000) = (8 * (b : ℚ)) / 1000000 ↔ w = 8 * b) ∧
    (w < 4294967296 → ((w : Nat) : ℚ) / (1 * 1000000) < 4294967296 / 1000000) := by
  constructor
  · rw [one_mul, div_left_inj' (by norm_num : (1000000 : ℚ) ≠ 0)]
    constructor
    · intro h
      exact_mod_cast h
    · intro h
      rw [h]
      push_cast
      ring
  · intro h
    rw [one_mul]
    have h1 : (w : ℚ) < 4294967296 := by exact_mod_cast h
    exact div_lt_div_of_pos_right h1 (by norm_num)

/-- C14.  In `experiment` of both sweep drivers the throughput returned is
always below `4294.967296`; and when the sink counter reads `b < 2 ^ 32`
bytes, it is `((8 * b) mod 2 ^ 32) / 1000000`, which is the exact value
`8 * b / 1000000` if and only if `b < 2 ^ 29 = 536870912`. -/
theorem bit_count_wraps_in_32_bits {σ : Type} (E : Engine σ) (s : σ) (payloadSize nWifi : Nat)
    (dataRate tcpVariant phyRate : String) :
    ((DataRate.experiment E s payloadSize nWifi dataRate tcpVariant phyRate).throughput
        < 4294967296 / 1000000 ∧
      (E.totalRx (DataRate.experiment E s payloadSize nWifi dataRate tcpVariant
          phyRate).state < 2 ^ 32 →
        (DataRate.experiment E s payloadSize nWifi dataRate tcpVariant phyRate).throughput
          = ((8 * E.totalRx (DataRate.experiment E s payloadSize nWifi dataRate tcpVariant
              phyRate).state % 2 ^ 32 : Nat) : ℚ) / 1000000 ∧
        ((DataRate.experiment E s payloadSize nWifi dataRate tcpVariant phyRate).throughput
          = 8 * (E.totalRx (DataRate.experiment E s payloadSize nWifi dataRate tcpVariant
              phyRate).state : ℚ) / 1000000 ↔
          E.totalRx (DataRate.experiment E s payloadSize nWifi dataRate tcpVariant
              phyRate).state < 536870912))) ∧
    ((PhyRate.experiment E s payloadSize nWifi dataRate tcpVariant phyRate).throughput
        < 4294967296 / 1000000 ∧
      (E.totalRx (PhyRate.experiment E s payloadSize nWifi dataRate tcpVariant
          phyRate).state < 2 ^ 32 →
        (PhyRate.experiment E s payloadSize nWifi dataRate tcpVariant phyRate).throughput
          = ((8 * E.totalRx (PhyRate.experiment E s payloadSize nWifi dataRate tcpVariant
              phyRate).state % 2 ^ 32 : Nat) : ℚ) / 1000000 ∧
        ((PhyRate.experiment E s payloadSize nWifi dataRate tcpVariant phyRate).throughput
          = 8 * (E.totalRx (PhyRate.experiment E s payloadSize nWifi dataRate tcpVariant
              phyRate).state : ℚ) / 1000000 ↔
          E.totalRx (PhyRate.experiment E s payloadSize nWifi dataRate tcpVariant
              phyRate).state < 536870912))) := by
  constructor
  · simp only [DataRate.experiment]
    refine ⟨(throughput_of_bit_count _ 0).2 (Nat.mod_lt _ (by norm_num)), ?_⟩
    intro hd
    obtain ⟨w1, w2, w3⟩ := bit_count_wrap _ hd
    obtain ⟨t1, t2⟩ := throughput_of_bit_count
      (8 * E.totalRx (exec E s (DataRate.trialCalls payloadSize nWifi dataRate tcpVariant
        phyRate 1 false)) % 2 ^ 32)
      (E.totalRx (exec E s (DataRate.trialCalls payloadSize nWifi dataRate tcpVariant
        phyRate 1 false)))
    rw [w1]
    refine ⟨by rw [one_mul], ?_⟩
    rw [t1, w2]
    norm_num
  · simp only [PhyRate.experiment]
    refine ⟨(throughput_of_bit_count _ 0).2 (Nat.mod_lt _ (by norm_num)), ?_⟩
    intro hp
    obtain ⟨w1, w2, w3⟩ := bit_count_wrap _ hp
    obtain ⟨t1, t2⟩ := throughput_of_bit_count
      (8 * E.totalRx (exec E s (PhyRate.trialCalls payloadSize nWifi dataRate tcpVariant
        phyRate 1 false)) % 2 ^ 32)
      (E.totalRx (exec E s (PhyRate.trialCalls payloadSize nWifi dataRate tcpVariant
        phyRate 1 false)))
    rw [w1]
    refine ⟨by rw [one_mul], ?_⟩
    rw [t1, w2]
    norm_num

/-- C14 (example): with a counter of 600000000 bytes, which is below
`2 ^ 32` and not below `2 ^ 29`, the throughput returned by `experiment` of
`codes/dataRate.cc` is `(8 * 600000000 mod 2 ^ 32) / 1000000`, and it is
`8 * 600000000 / 1000000` only if `600000000 < 536870912`. -/
theorem bit_count_wraps_in_32_bits_witness :
    (counterEngine 600000000).totalRx (DataRate.experiment (counterEngine 600000000) () 1024 1
      "100Mbps" "ns3::TcpNewReno" "DsssRate11Mbps").state < 2 ^ 32 ∧
    (DataRate.experiment (counterEngine 600000000) () 1024 1 "100Mbps" "ns3::TcpNewReno"
        "DsssRate11Mbps").throughput
      = ((8 * (counterEngine 600000000).totalRx (DataRate.experiment (counterEngine 600000000)
          () 1024 1 "100Mbps" "ns3::TcpNewReno" "DsssRate11Mbps").state % 2 ^ 32 : Nat) : ℚ)
        / 1000000 ∧
    ((DataRate.experiment (counterEngine 600000000) () 1024 1 "100Mbps" "ns3::TcpNewReno"
        "DsssRate11Mbps").throughput
      = 8 * ((counterEngine 600000000).totalRx (DataRate.experiment (counterEngine 600000000)
          () 1024 1 "100Mbps" "ns3::TcpNewReno" "DsssRate11Mbps").state : ℚ) / 1000000 ↔
      (counterEngine 600000000).totalRx (DataRate.experiment (counterEngine 600000000)
          () 1024 1 "100Mbps" "ns3::TcpNewReno" "DsssRate11Mbps").state < 536870912) :=
  ⟨by show (600000000 : Nat) < 2 ^ 32; norm_num,
    (bit_count_wraps_in_32_bits (counterEngine 600000000) () 1024 1 "100Mbps"
      "ns3::TcpNewReno" "DsssRate11Mbps").1.2 (by show (600000000 : Nat) < 2 ^ 32; norm_num)⟩

/-! ## The three programs run the same trial -/

/-- C15.  For all arguments, `experiment` of `codes/dataRate.cc` and
`experiment` of `codes/phyRate.cc`, started in the same library state,
issue the same calls with the same values, leave the same library state
and return the same throughput; so does the trial of `main` of
`tcp-80211b.cc` run with the same station count, payload size, application
rate and physical rate, measurement window 1 and packet capture off, and
in particular `main` run without arguments.  For every station count
`m + 1`, the first trial of the application-rate sweep (number `8 * m` of
its enumeration) and the first trial of the physical-rate sweep (number
`4 * m`) are the same call
`experiment (1024, m + 1, 100Mbps, ns3::TcpNewReno, DsssRate11Mbps)`. -/
theorem trial_equivalence {σ : Type} (E : Engine σ) (s : σ) (payloadSize nWifi : Nat)
    (dataRate tcpVariant phyRate : String) (P : Tcp80211b.CommandLine) (m : Nat) :
    DataRate.experiment E s payloadSize nWifi dataRate tcpVariant phyRate
      = PhyRate.experiment E s payloadSize nWifi dataRate tcpVariant phyRate ∧
    Tcp80211b.trial E s
        { nWifi := nWifi, payloadSize := payloadSize, dataRate := dataRate,
          tcpVariant := tcpVariant, phyRate := phyRate, simulationTime := 1,
          pcapTracing := false }
      = DataRate.experiment E s payloadSize nWifi dataRate tcpVariant phyRate ∧
    (Tcp80211b.main P E s []).map (fun o => o.result)
      = .ok (DataRate.experiment E s 1024 50 "100Mbps" "ns3::TcpNewReno" "DsssRate11Mbps") ∧
    DataRate.gridTrial E (8 * m) s
      = DataRate.experiment E s 1024 (m + 1) "100Mbps" "ns3::TcpNewReno" "DsssRate11Mbps" ∧
    PhyRate.gridTrial E (4 * m) s
      = PhyRate.experiment E s 1024 (m + 1) "100Mbps" "ns3::TcpNewReno" "DsssRate11Mbps" ∧
    DataRate.gridTrial E (8 * m) s = PhyRate.gridTrial E (4 * m) s := by
  have h1 : ∀ (p n : Nat) (d v r : String),
      DataRate.experiment E s p n d v r = PhyRate.experiment E s p n d v r :=
    fun _ _ _ _ _ => rfl
  have hd := dataRate_gridTrial_at E m 0 (by omega) s
  have hp := phyRate_gridTrial_at E m 0 "DsssRate11Mbps" (by simp [PhyRate.phyRates]) s
  have hl : DataRate.rateLabel (0 + 1) = "100Mbps" := by decide
  rw [Nat.add_zero, hl] at hd
  rw [Nat.add_zero] at hp
  exact ⟨h1 _ _ _ _ _, rfl, rfl, hd, hp, by rw [hd, hp]; exact h1 _ _ _ _ _⟩

/-! ## Where the nodes are placed -/

/-- Installing on the first `k` nodes of a container hands out the next `k`
positions of the allocator, in order. -/
theorem installNodes_eq (ns na : Nat) (a : GridAllocator) (m : String) (pl : List Placed)
    (g : NodeGroup) (k : Nat) :
    Mobility.installNodes
        { wifiStaNodes := ns, wifiApNode := na, allocator := some a, model := some m,
          placed := pl } g k
      = { wifiStaNodes := ns, wifiApNode := na,
          allocator := some { a with current := a.current + k }, model := some m,
          placed := pl ++ (List.range k).map fun i =>
            { group := g, index := i, model := m,
              position := ({ a with current := a.current + i } : GridAllocator).position } } := by
  induction k with
  | zero => simp [Mobility.installNodes]
  | succ k ih =>
    simp only [Mobility.installNodes, ih, Mobility.installNode, GridAllocator.advance,
      List.range_succ, List.map_append, List.map_cons, List.map_nil, List.append_assoc,
      Nat.add_assoc]

/-- The placement that the calls of the trial of `tcp-80211b.cc` describe:
the stations take the cells 0 to `nWifi - 1` of the grid, the access point
takes cell `nWifi`. -/
theorem tcp80211b_placement {σ : Type} (E : Engine σ) (s : σ) (L : Tcp80211b.Locals) :
    (placementOf (Tcp80211b.trial E s L).trace).placed
      = (List.range L.nWifi).map (fun i =>
          { group := .wifiStaNodes, index := i, model := "ns3::RandomDirection2dMobilityModel",
            position := (5 * ((i % 3 : Nat) : ℚ), 10 * ((i / 3 : Nat) : ℚ)) })
        ++ [{ group := .wifiApNode, index := 0, model := "ns3::ConstantPositionMobilityModel",
              position := (5 * ((L.nWifi % 3 : Nat) : ℚ), 10 * ((L.nWifi / 3 : Nat) : ℚ)) }] := by
  cases hp : L.pcapTracing <;>
    simp [placementOf, Tcp80211b.trial, Tcp80211b.trialCalls, Tcp80211b.physicalLayerCalls,
      Tcp80211b.topologyCalls, Tcp80211b.applicationCalls, Tcp80211b.traceCalls,
      Tcp80211b.simulatorCalls, Mobility.apply, Mobility.empty, Mobility.size,
      GridAllocator.create, getAttr, installNodes_eq, GridAllocator.position, hp,
      List.range_succ]

/-- C13 (counterexample).  With one station the access point of the trial
of `tcp-80211b.cc` is given the constant-position model at `(5, 0)`, and
with four stations at `(5, 10)`: its position is not the grid origin
`(0, 0)` and it is not independent of the station count. -/
theorem access_point_not_at_origin :
    ((placementOf (Tcp80211b.trial tickEngine 0
        { Tcp80211b.defaults with nWifi := 1 }).trace).placed.filter
        (fun p => p.group == .wifiApNode)).map (fun p => (p.model, p.position))
      = [("ns3::ConstantPositionMobilityModel", ((5 : ℚ), (0 : ℚ)))] ∧
    ((placementOf (Tcp80211b.trial tickEngine 0
        { Tcp80211b.defaults with nWifi := 4 }).trace).placed.filter
        (fun p => p.group == .wifiApNode)).map (fun p => (p.model, p.position))
      = [("ns3::ConstantPositionMobilityModel", ((5 : ℚ), (10 : ℚ)))] ∧
    ((5 : ℚ), (0 : ℚ)) ≠ (0, 0) ∧ ((5 : ℚ), (10 : ℚ)) ≠ (0, 0) := by
  have h1 : (NodeGroup.wifiStaNodes == NodeGroup.wifiApNode) = false := by decide
  have h2 : (NodeGroup.wifiApNode == NodeGroup.wifiApNode) = true := by decide
  refine ⟨?_, ?_, by norm_num, by norm_num⟩
  · rw [tcp80211b_placement]
    simp [List.range_succ, List.filter_cons, h1, h2]
  · rw [tcp80211b_placement]
    simp [List.range_succ, List.filter_cons, h1, h2]

/-- C13 (amended).  For every station count `n`, in the trial of
`tcp-80211b.cc` and in `experiment` of `codes/dataRate.cc` the stations are
the nodes given the moving model `ns3::RandomDirection2dMobilityModel`,
station `i` starting at cell `i` of the grid, `(5 * (i mod 3), 10 * (i div
3))`; the access point is given `ns3::ConstantPositionMobilityModel` at
the cell after the stations, cell `n`, `(5 * (n mod 3), 10 * (n div 3))`,
which is the grid origin `(0, 0)` only when there is no station. -/
theorem access_point_placement {σ : Type} (E : Engine σ) (s : σ) (L : Tcp80211b.Locals)
    (payloadSize nWifi : Nat) (dataRate tcpVariant phyRate : String) :
    (placementOf (Tcp80211b.trial E s L).trace).placed
      = (List.range L.nWifi).map (fun i =>
          { group := .wifiStaNodes, index := i, model := "ns3::RandomDirection2dMobilityModel",
            position := (5 * ((i % 3 : Nat) : ℚ), 10 * ((i / 3 : Nat) : ℚ)) })
        ++ [{ group := .wifiApNode, index := 0, model := "ns3::ConstantPositionMobilityModel",
              position := (5 * ((L.nWifi % 3 : Nat) : ℚ), 10 * ((L.nWifi / 3 : Nat) : ℚ)) }] ∧
    (placementOf (DataRate.experiment E s payloadSize nWifi dataRate tcpVariant
        phyRate).trace).placed
      = (List.range nWifi).map (fun i =>
          { group := .wifiStaNodes, index := i, model := "ns3::RandomDirection2dMobilityModel",
            position := (5 * ((i % 3 : Nat) : ℚ), 10 * ((i / 3 : Nat) : ℚ)) })
        ++ [{ group := .wifiApNode, index := 0, model := "ns3::ConstantPositionMobilityModel",
              position := (5 * ((nWifi % 3 : Nat) : ℚ), 10 * ((nWifi / 3 : Nat) : ℚ)) }] ∧
    (((5 * ((nWifi % 3 : Nat) : ℚ), 10 * ((nWifi / 3 : Nat) : ℚ)) : ℚ × ℚ) = (0, 0) ↔
      nWifi = 0) := by
  refine ⟨tcp80211b_placement E s L, ?_, ?_⟩
  · exact tcp80211b_placement E s
      { nWifi := nWifi, payloadSize := payloadSize, dataRate := dataRate,
        tcpVariant := tcpVariant, phyRate := phyRate, simulationTime := 1,
        pcapTracing := false }
  · simp only [Prod.mk.injEq, mul_eq_zero, Nat.cast_eq_zero]
    constructor
    · rintro ⟨h1 | h1, h2 | h2⟩
      · exact absurd h1 (by norm_num)
      · exact absurd h1 (by norm_num)
      · exact absurd h2 (by norm_num)
      · omega
    · intro h
      subst h
      simp

/-! ## The single trial and its one line of output -/

/-- When `main` of `tcp-80211b.cc` gets past `cmd.Parse` it prints exactly
one throughput line, with the throughput of its trial. -/
theorem tcp80211b_one_line {σ : Type} (P : Tcp80211b.CommandLine) (E : Engine σ) (s : σ)
    (args : List (String × String)) (o : Tcp80211b.MainOutcome σ)
    (h : Tcp80211b.main P E s args = .ok o) :
    o.console = [o.result.throughput] := by
  simp only [Tcp80211b.main] at h
  cases hp : Tcp80211b.parse P args Tcp80211b.defaults with
  | error e => simp [hp] at h
  | ok L =>
    simp only [hp, Except.ok.injEq] at h
    subst h
    rfl

/-- The throughput of the trial with one station, payload 1024, application
rate 100Mbps, physical rate DsssRate11Mbps and window 1 lies strictly
between 0 and 11 exactly when the bit count that the code forms from the
sink counter lies strictly between 0 and 11000000; the programs put no
bound of their own on the counter. -/
theorem sanity_bound_iff_bit_count {σ : Type} (E : Engine σ) (s : σ) (tcpVariant : String) :
    (0 < (Tcp80211b.trial E s
        { nWifi := 1, payloadSize := 1024, dataRate := "100Mbps", tcpVariant := tcpVariant,
          phyRate := "DsssRate11Mbps", simulationTime := 1, pcapTracing := false }).throughput ∧
      (Tcp80211b.trial E s
        { nWifi := 1, payloadSize := 1024, dataRate := "100Mbps", tcpVariant := tcpVariant,
          phyRate := "DsssRate11Mbps", simulationTime := 1, pcapTracing := false }).throughput
        < 11) ↔
    (0 < E.totalRx (Tcp80211b.trial E s
        { nWifi := 1, payloadSize := 1024, dataRate := "100Mbps", tcpVariant := tcpVariant,
          phyRate := "DsssRate11Mbps", simulationTime := 1, pcapTracing := false }).state
        % 2 ^ 32 * 8 % 2 ^ 32 ∧
      E.totalRx (Tcp80211b.trial E s
        { nWifi := 1, payloadSize := 1024, dataRate := "100Mbps", tcpVariant := tcpVariant,
          phyRate := "DsssRate11Mbps", simulationTime := 1, pcapTracing := false }).state
        % 2 ^ 32 * 8 % 2 ^ 32 < 11000000) := by
  simp only [Tcp80211b.trial]
  rw [one_mul, lt_div_iff₀ (by norm_num : (0 : ℚ) < 1000000),
    div_lt_iff₀ (by norm_num : (0 : ℚ) < 1000000), zero_mul]
  constructor
  · rintro ⟨h1, h2⟩
    exact ⟨by exact_mod_cast h1, by exact_mod_cast h2⟩
  · rintro ⟨h1, h2⟩
    exact ⟨by exact_mod_cast h1, by exact_mod_cast h2⟩

/-- With a library whose sink counter reads 0 the throughput of that trial
is 0, and with one whose counter reads 500000 bytes it is 4: whether the
throughput lies strictly between 0 and 11 is decided by the library. -/
theorem sanity_bound_decided_by_library :
    (Tcp80211b.trial (counterEngine 0) ()
        { nWifi := 1, payloadSize := 1024, dataRate := "100Mbps",
          tcpVariant := "ns3::TcpNewReno", phyRate := "DsssRate11Mbps", simulationTime := 1,
          pcapTracing := false }).throughput = 0 ∧
    (Tcp80211b.trial (counterEngine 500000) ()
        { nWifi := 1, payloadSize := 1024, dataRate := "100Mbps",
          tcpVariant := "ns3::TcpNewReno", phyRate := "DsssRate11Mbps", simulationTime := 1,
          pcapTracing := false }).throughput = 4 := by
  constructor
  · simp [Tcp80211b.trial, counterEngine]
  · simp [Tcp80211b.trial, counterEngine]
    norm_num

end Ns3
